import Mathlib

/-!
# Interrupt abstraction layer of pipcore-mp (x86mp_galileo)

Shallow embedding of `src/IAL/x86mp_galileo/ial_init.c`.

* Machine integers are `Nat`, truncated explicitly where the C type truncates.
* The globals of the file (`timer_ticks`, `idt_entries`, `idt_ptr`, `pcid_enabled`) and the
  hardware registers the file touches (CR4, the model-specific registers, the memory-mapped
  local-controller registers, the descriptor-table register) are fields of `State`.
* Every hardware side effect is appended, in program order, to `State.trace`.
* Constants, types and symbols that come from headers which are not part of the sources at
  hand (`pic8259.h`, `x86int.h`, `fpinfo.h`, `port.h`, the handler stubs of `ial.S`) are
  fields of `Board`; nothing is assumed about their values unless a theorem says so.
* `for(;;);` is the outcome `Run.spin`.
-/

namespace IAL

/-! ## Data model -/

/-- One gate of the interrupt descriptor table. The field names are the ones `idtSetGate`
assigns; the declaration itself is in `x86int.h`. Widths: `base_lo`, `sel`, `base_hi` are
16 bits, `always0` and `flags` are 8 bits. -/
structure idt_entry_t where
  base_lo : Nat
  sel : Nat
  always0 : Nat
  flags : Nat
  base_hi : Nat
deriving DecidableEq

/-- Descriptor of the table: `limit` is 16 bits, `base` 32 bits. -/
structure idt_ptr_t where
  limit : Nat
  base : Nat
deriving DecidableEq

/-- Hardware-visible side effects, in the order the program issues them. -/
inductive Event where
  | outb (port val : Nat)
  | inb (port : Nat)
  | lidt (ptr : Nat)
  | wrmsr (msr lo hi : Nat)
  | store32 (addr val : Nat)
  | wrcr4 (val : Nat)
  | debug
deriving DecidableEq

/-- Constants and external symbols used by `ial_init.c` but declared elsewhere. -/
structure Board where
  PIC1_COMMAND : Nat
  PIC1_DATA : Nat
  PIC2_COMMAND : Nat
  PIC2_DATA : Nat
  ICW1_INIT : Nat
  ICW1_ICW4 : Nat
  ICW4_8086 : Nat
  CPUID_GETFEATURES : Nat
  CPUID_FEAT_EDX_PGE : Nat
  CPUID_FEAT_ECX_PCID : Nat
  CPUID_FEAT_EDX_APIC : Nat
  /-- Value of `sizeof (idt_entry_t)`. -/
  sizeof_idt_entry_t : Nat
  /-- Address of the handler `isrX`. -/
  isr : Nat → Nat
  /-- Address of the handler `irqX`. -/
  irq : Nat → Nat
  /-- Address of the array `idt_entries`. -/
  idt_entries_addr : Nat
  /-- Address of the variable `idt_ptr`. -/
  idt_ptr_addr : Nat
  /-- Whether the build defines `KEEP_PIC_MASK`. -/
  KEEP_PIC_MASK : Bool

/-- What the invoking core answers to `coreId()` and to `cpuid(code, &a, &d)`: the pair is
(first output, second output). -/
structure Cpu where
  coreId : Nat
  cpuid : Nat → Nat × Nat

/-- Globals of `ial_init.c` together with the hardware state the file reads and writes. -/
structure State where
  timer_ticks : Nat
  idt_entries : Fin 256 → idt_entry_t
  idt_ptr : idt_ptr_t
  pcid_enabled : Nat
  /-- The extern variable `lapic_base`. -/
  lapic_base : Nat
  cr4 : Nat
  /-- Model-specific registers: register id to (low word, high word). -/
  msr : Nat → Nat × Nat
  /-- 32-bit words of memory, by address. -/
  mem : Nat → Nat
  /-- Bytes read from the I/O ports, by port. -/
  ports : Nat → Nat
  /-- Descriptor last loaded into the core-local table register, if any. -/
  idtr : Option idt_ptr_t
  trace : List Event

/-- Outcome of a function that may end in `for(;;);`. -/
inductive Run (σ : Type) where
  | ret (s : σ)
  | spin (s : σ)

/-- State reached when the function returned or started spinning. -/
def Run.state {σ : Type} : Run σ → σ
  | Run.ret s => s
  | Run.spin s => s

/-- Whether the function returned. -/
def Run.returned {σ : Type} : Run σ → Bool
  | Run.ret _ => true
  | Run.spin _ => false

/-! ## Machine words -/

def u8 (n : Nat) : Nat := n % 2 ^ 8
def u16 (n : Nat) : Nat := n % 2 ^ 16
def u32 (n : Nat) : Nat := n % 2 ^ 32

/-- Index given by a `uint8_t` argument. -/
def idx8 (n : Nat) : Fin 256 := ⟨n % 256, Nat.mod_lt n (by decide)⟩

/-- Unsigned 32-bit subtraction. -/
def sub32 (a b : Nat) : Nat := (u32 a + (2 ^ 32 - u32 b)) % 2 ^ 32

/-! ## Primitives declared outside the file -/

/-- Port write `outb (port, value)`: a 16-bit port and a byte. -/
def outb (port val : Nat) (s : State) : State :=
  { s with trace := s.trace ++ [Event.outb (u16 port) (u8 val)] }

/-- Port read `inb (port)`: the byte currently readable at the port. -/
def inb (port : Nat) (s : State) : Nat × State :=
  (u8 (s.ports (u16 port)), { s with trace := s.trace ++ [Event.inb (u16 port)] })

/-- Either of `IAL_DEBUG (...)` and `DEBUG (...)`: a message handed to the debug sink. -/
def IAL_DEBUG (s : State) : State :=
  { s with trace := s.trace ++ [Event.debug] }

/-- Call `idtFlush (& idt_ptr)` into `ial.S`: loads the descriptor into the core-local
register. -/
def idtFlush (B : Board) (s : State) : State :=
  { s with idtr := some s.idt_ptr, trace := s.trace ++ [Event.lidt (u32 B.idt_ptr_addr)] }

/-! ## ial_init.c -/

/-- The all-zero gate left by `memset`. -/
def zeroGate : idt_entry_t :=
  { base_lo := 0, sel := 0, always0 := 0, flags := 0, base_hi := 0 }

def idtSetGate (num base sel flags : Nat) (s : State) : State :=
  let i := idx8 num
  let base := u32 base
  let e := s.idt_entries i
  let e := { e with base_lo := u16 (base &&& 0xFFFF) }
  let e := { e with base_hi := u16 ((base >>> 16) &&& 0xFFFF) }
  let e := { e with sel := u16 sel }
  let e := { e with always0 := 0 }
  let e := { e with flags := u8 flags }
  { s with idt_entries := Function.update s.idt_entries i e }

def PIC1_OFFSET : Nat := 0x20
def PIC2_OFFSET : Nat := 0x28

def remapIrq (B : Board) (s : State) : State :=
  if B.KEEP_PIC_MASK then
    let (a1, s) := inb B.PIC1_DATA s
    let (a2, s) := inb B.PIC2_DATA s
    let s := outb B.PIC1_COMMAND (B.ICW1_INIT ||| B.ICW1_ICW4) s
    let s := outb B.PIC2_COMMAND (B.ICW1_INIT ||| B.ICW1_ICW4) s
    let s := outb B.PIC1_DATA PIC1_OFFSET s
    let s := outb B.PIC2_DATA PIC2_OFFSET s
    let s := outb B.PIC1_DATA 0x04 s
    let s := outb B.PIC2_DATA 0x02 s
    let s := outb B.PIC1_DATA B.ICW4_8086 s
    let s := outb B.PIC2_DATA B.ICW4_8086 s
    let s := outb B.PIC1_DATA a1 s
    outb B.PIC2_DATA a2 s
  else
    let s := outb B.PIC1_COMMAND (B.ICW1_INIT ||| B.ICW1_ICW4) s
    let s := outb B.PIC2_COMMAND (B.ICW1_INIT ||| B.ICW1_ICW4) s
    let s := outb B.PIC1_DATA PIC1_OFFSET s
    let s := outb B.PIC2_DATA PIC2_OFFSET s
    let s := outb B.PIC1_DATA 0x04 s
    let s := outb B.PIC2_DATA 0x02 s
    let s := outb B.PIC1_DATA B.ICW4_8086 s
    let s := outb B.PIC2_DATA B.ICW4_8086 s
    let s := outb B.PIC1_DATA 0 s
    outb B.PIC2_DATA 0 s

/-- The statement `IRQ_IDT(X)`. -/
def IRQ_IDT (B : Board) (X : Nat) (s : State) : State :=
  idtSetGate (32 + X) (B.irq X) 0x08 0x8E s

/-- Statements `IRQ_IDT(0); ... IRQ_IDT(15);` then the flush. -/
def bindIrq (B : Board) (s : State) : State :=
  let s := (List.range 16).foldl (fun s X => IRQ_IDT B X s) s
  let s := idtFlush B s
  IAL_DEBUG s

/-- The statement `KERN_IDT(X)`. -/
def KERN_IDT (B : Board) (X : Nat) (s : State) : State :=
  idtSetGate X (B.isr X) 0x08 0x8E s

/-- The statement `USER_IDT(X)`. -/
def USER_IDT (B : Board) (X : Nat) (s : State) : State :=
  idtSetGate X (B.isr X) 0x08 0xEE s

/-- Statements `KERN_IDT(0); ... KERN_IDT(31); USER_IDT(48); ... USER_IDT(255);` then the
flush. -/
def bindIsr (B : Board) (s : State) : State :=
  let s := (List.range 32).foldl (fun s X => KERN_IDT B X s) s
  let s := (List.range' 48 208).foldl (fun s X => USER_IDT B X s) s
  let s := idtFlush B s
  IAL_DEBUG s

def initIdt (B : Board) (s : State) : State :=
  let s := { s with idt_ptr := { s.idt_ptr with
    limit := u16 (sub32 (B.sizeof_idt_entry_t * 256) 1) } }
  let s := { s with idt_ptr := { s.idt_ptr with base := u32 B.idt_entries_addr } }
  let s := { s with idt_entries := fun _ => zeroGate }
  IAL_DEBUG s

/-- Instruction `MOV %0, %%CR4`. -/
def wrcr4 (v : Nat) (s : State) : State :=
  { s with cr4 := v, trace := s.trace ++ [Event.wrcr4 v] }

/-- The vendor and brand strings are built in local buffers and only handed to the debug
sink; the feature word then drives the two checks. -/
def initCpu (B : Board) (c : Cpu) (s : State) : State :=
  let s := IAL_DEBUG s
  let s := IAL_DEBUG s
  let s := IAL_DEBUG s
  let ecx := u32 (c.cpuid B.CPUID_GETFEATURES).1
  let edx := u32 (c.cpuid B.CPUID_GETFEATURES).2
  let s :=
    if edx &&& B.CPUID_FEAT_EDX_PGE ≠ 0 then
      let s := IAL_DEBUG s
      let cr4 := u32 s.cr4
      let cr4 := u32 (cr4 ||| (1 <<< 7))
      wrcr4 cr4 s
    else
      IAL_DEBUG s
  if ecx &&& B.CPUID_FEAT_ECX_PCID ≠ 0 then
    IAL_DEBUG s
  else
    IAL_DEBUG s

def IA32_APIC_BASE_MSR : Nat := 0x1B
def IA32_APIC_BASE_MSR_BSP : Nat := 0x100
def IA32_APIC_BASE_MSR_ENABLE : Nat := 0x800

/-- Instruction `rdmsr`: (low word, high word) of the register. -/
def cpu_get_msr (msr : Nat) (s : State) : Nat × Nat :=
  (u32 (s.msr (u32 msr)).1, u32 (s.msr (u32 msr)).2)

/-- Instruction `wrmsr`. -/
def cpu_set_msr (msr lo hi : Nat) (s : State) : State :=
  { s with msr := Function.update s.msr (u32 msr) (u32 lo, u32 hi),
           trace := s.trace ++ [Event.wrmsr (u32 msr) (u32 lo) (u32 hi)] }

def cpu_get_apic_base (s : State) : Nat :=
  let eax := (cpu_get_msr IA32_APIC_BASE_MSR s).1
  eax &&& 0xfffff000

def cpu_set_apic_base (apic : Nat) (s : State) : State :=
  let edx := 0
  let eax := (u32 apic &&& 0xfffff000) ||| IA32_APIC_BASE_MSR_ENABLE
  cpu_set_msr IA32_APIC_BASE_MSR eax edx s

/-- Address of the spurious-interrupt vector register, `(uint32_t)lapic_base + 0xF0`. -/
def sivrAddr (s : State) : Nat := u32 (u32 s.lapic_base + 0xF0)

/-- 32-bit store through a pointer. -/
def store32 (addr val : Nat) (s : State) : State :=
  { s with mem := Function.update s.mem addr (u32 val),
           trace := s.trace ++ [Event.store32 addr (u32 val)] }

def enable_apic (s : State) : State :=
  let s := cpu_set_apic_base (cpu_get_apic_base s) s
  let cur := u32 (s.mem (sivrAddr s))
  store32 (sivrAddr s) (cur ||| 0x100) s

def apicInit (B : Board) (c : Cpu) (s : State) : Run State :=
  let edx := u32 (c.cpuid 1).2
  if edx &&& B.CPUID_FEAT_EDX_APIC ≠ 0 then
    let s := IAL_DEBUG s
    let s := enable_apic s
    Run.ret (IAL_DEBUG s)
  else
    let s := IAL_DEBUG s
    Run.spin s

def IRQ_BASE : Nat := 0x20

def pic_setup (B : Board) (s : State) : State :=
  let s := outb B.PIC1_COMMAND (B.ICW1_INIT ||| B.ICW1_ICW4) s
  let s := outb B.PIC2_COMMAND (B.ICW1_INIT ||| B.ICW1_ICW4) s
  let s := outb B.PIC1_DATA IRQ_BASE s
  let s := outb B.PIC2_DATA (IRQ_BASE + 8) s
  let s := outb B.PIC1_DATA 4 s
  let s := outb B.PIC2_DATA 2 s
  let s := outb B.PIC1_DATA B.ICW4_8086 s
  let s := outb B.PIC2_DATA B.ICW4_8086 s
  let s := outb B.PIC1_DATA 0xFF s
  outb B.PIC2_DATA 0xFF s

def initInterrupts (B : Board) (c : Cpu) (s : State) : Run State :=
  if c.coreId = 0 then
    let s := IAL_DEBUG s
    let s := IAL_DEBUG s
    let s := IAL_DEBUG s
    let s := IAL_DEBUG s
    let s := pic_setup B s
    let s := IAL_DEBUG s
    let s := initIdt B s
    let s := bindIsr B s
    let s := bindIrq B s
    let s := { s with timer_ticks := 0 }
    Run.ret (initCpu B c s)
  else
    let s := IAL_DEBUG s
    let s := initIdt B s
    let s := bindIsr B s
    let s := bindIrq B s
    match apicInit B c s with
    | Run.ret s => Run.ret (initCpu B c s)
    | Run.spin s => Run.spin s

/-! ## Auxiliary definitions for the statements -/

/-- The gate `idtSetGate` leaves at the vector it is given. -/
def gateOf (base sel flags : Nat) : idt_entry_t :=
  { base_lo := u16 (u32 base &&& 0xFFFF), sel := u16 sel, always0 := 0, flags := u8 flags,
    base_hi := u16 ((u32 base >>> 16) &&& 0xFFFF) }

/-- Table obtained by storing the gates `g X` at the vectors `vec X`, for `X` along `l`. -/
def storeGates (vec : Nat → Nat) (g : Nat → idt_entry_t) (l : List Nat)
    (t : Fin 256 → idt_entry_t) : Fin 256 → idt_entry_t :=
  l.foldl (fun t X => Function.update t (idx8 (vec X)) (g X)) t

/-- The port write an event stands for, if it is one. -/
def Event.portWrite? : Event → Option (Nat × Nat)
  | Event.outb p v => some (p, v)
  | _ => none

/-- Port writes of a trace, as (port, byte), in order. -/
def portWrites (tr : List Event) : List (Nat × Nat) :=
  tr.filterMap Event.portWrite?

/-- Port writes of a trace that go to either port of one controller. -/
def controllerWrites (cmd data : Nat) (tr : List Event) : List (Nat × Nat) :=
  (portWrites tr).filter (fun pv => pv.1 = cmd || pv.1 = data)

/-- Bytes written to one port, in order. -/
def writesTo (port : Nat) (tr : List Event) : List Nat :=
  ((portWrites tr).filter (fun pv => pv.1 = port)).map (fun pv => pv.2)

/-- Whether an event is a write to one of the four legacy-controller ports. -/
def isPicWrite (B : Board) : Event → Bool
  | Event.outb p _ =>
    p = u16 B.PIC1_COMMAND || p = u16 B.PIC1_DATA || p = u16 B.PIC2_COMMAND ||
      p = u16 B.PIC2_DATA
  | _ => false

/-- The four controller ports are distinct 16-bit ports and the command words are bytes. -/
def Board.picWf (B : Board) : Prop :=
  B.PIC1_COMMAND < 2 ^ 16 ∧ B.PIC1_DATA < 2 ^ 16 ∧ B.PIC2_COMMAND < 2 ^ 16 ∧
  B.PIC2_DATA < 2 ^ 16 ∧
  B.PIC1_COMMAND ≠ B.PIC1_DATA ∧ B.PIC1_COMMAND ≠ B.PIC2_COMMAND ∧
  B.PIC1_COMMAND ≠ B.PIC2_DATA ∧ B.PIC1_DATA ≠ B.PIC2_COMMAND ∧
  B.PIC1_DATA ≠ B.PIC2_DATA ∧ B.PIC2_COMMAND ≠ B.PIC2_DATA ∧
  B.ICW1_INIT ||| B.ICW1_ICW4 < 2 ^ 8 ∧ B.ICW4_8086 < 2 ^ 8

/-- Vector a cascaded pair of controllers raises for the hardware line `n`, given the
vector offsets they were programmed with: the master serves the lines 0..7, the slave the
lines 8..15. -/
def raisedVector (masterOffset slaveOffset n : Nat) : Nat :=
  if n < 8 then masterOffset + n else slaveOffset + (n - 8)

/-- Vector offset a trace programs into the controller with the given data port: the first
byte written to that port, which in the initialization sequence follows ICW1. -/
def offsetWritten (data : Nat) (tr : List Event) : Option Nat :=
  (writesTo data tr).head?

/-- Vector the controllers raise for the line `n` once the trace has programmed them. -/
def programmedVector (B : Board) (tr : List Event) (n : Nat) : Option Nat :=
  match offsetWritten B.PIC1_DATA tr, offsetWritten B.PIC2_DATA tr with
  | some m, some sl => some (raisedVector m sl n)
  | _, _ => none

/-- A step only appends to the trace, and what it appends has no port write. -/
def Quiet (f : State → State) : Prop :=
  ∀ s, ∃ tr, (f s).trace = s.trace ++ tr ∧ portWrites tr = []

/-! ## Concrete inputs -/

/-- A board with the customary values of the constants. -/
def galileo : Board where
  PIC1_COMMAND := 0x20
  PIC1_DATA := 0x21
  PIC2_COMMAND := 0xA0
  PIC2_DATA := 0xA1
  ICW1_INIT := 0x10
  ICW1_ICW4 := 0x01
  ICW4_8086 := 0x01
  CPUID_GETFEATURES := 1
  CPUID_FEAT_EDX_PGE := 2 ^ 13
  CPUID_FEAT_ECX_PCID := 2 ^ 17
  CPUID_FEAT_EDX_APIC := 2 ^ 9
  sizeof_idt_entry_t := 8
  isr := fun X => 0x00101000 + 16 * X
  irq := fun X => 0x00103000 + 16 * X
  idt_entries_addr := 0x00200000
  idt_ptr_addr := 0x00200800
  KEEP_PIC_MASK := false

/-- Boot core with global pages, process-context identifiers and a local controller. -/
def bspCpu : Cpu where
  coreId := 0
  cpuid := fun _ => (2 ^ 17, 2 ^ 13 + 2 ^ 9)

/-- Secondary core with the same features. -/
def apCpu : Cpu where
  coreId := 1
  cpuid := fun _ => (2 ^ 17, 2 ^ 13 + 2 ^ 9)

/-- Secondary core without a local controller and without global pages. -/
def oldCpu : Cpu where
  coreId := 1
  cpuid := fun _ => (0, 0)

/-- A state with a dirty table, a running tick counter and paging switched on. -/
def dirtyState : State where
  timer_ticks := 1234
  idt_entries := fun _ =>
    { base_lo := 0xBEEF, sel := 0x10, always0 := 7, flags := 0xFF, base_hi := 0xDEAD }
  idt_ptr := { limit := 5, base := 6 }
  pcid_enabled := 0
  lapic_base := 0xFEE00000
  cr4 := 0x10
  msr := fun r => if r = 0x1B then (0xFEE00100, 0) else (0, 0)
  mem := fun a => if a = 0xFEE000F0 then 0xFF else 0
  ports := fun _ => 0
  idtr := none
  trace := []

/-! ## Gate installation -/

theorem idtSetGate_eq (num base sel flags : Nat) (s : State) :
    idtSetGate num base sel flags s =
      { s with idt_entries := Function.update s.idt_entries (idx8 num) (gateOf base sel flags) } :=
  rfl

theorem foldl_idtSetGate (vec h : Nat → Nat) (sel flags : Nat) (l : List Nat) (s : State) :
    l.foldl (fun s X => idtSetGate (vec X) (h X) sel flags s) s =
      { s with idt_entries :=
          storeGates vec (fun X => gateOf (h X) sel flags) l s.idt_entries } := by
  induction l generalizing s with
  | nil => rfl
  | cons X l ih =>
    rw [List.foldl_cons, ih]
    rfl

theorem storeGates_range (k : Nat) (g : Nat → idt_entry_t) (n a : Nat)
    (t : Fin 256 → idt_entry_t) (hn : k + a + n ≤ 256) (j : Fin 256) :
    storeGates (fun X => k + X) g (List.range' a n) t j =
      if k + a ≤ j.val ∧ j.val < k + a + n then g (j.val - k) else t j := by
  induction n generalizing a t with
  | zero =>
    have h0 : ¬ (k + a ≤ j.val ∧ j.val < k + a + 0) := by omega
    rw [if_neg h0]
    rfl
  | succ n ih =>
    have hstep : storeGates (fun X => k + X) g (List.range' a (n + 1)) t =
        storeGates (fun X => k + X) g (List.range' (a + 1) n)
          (Function.update t (idx8 (k + a)) (g a)) := rfl
    rw [hstep, ih (a + 1) _ (by omega)]
    by_cases h1 : k + (a + 1) ≤ j.val ∧ j.val < k + (a + 1) + n
    · have h2 : k + a ≤ j.val ∧ j.val < k + a + (n + 1) := by omega
      rw [if_pos h1, if_pos h2]
    · rw [if_neg h1]
      by_cases h3 : j.val = k + a
      · have h2 : k + a ≤ j.val ∧ j.val < k + a + (n + 1) := by omega
        have hj : j = idx8 (k + a) := by
          apply Fin.ext
          show j.val = (k + a) % 256
          rw [Nat.mod_eq_of_lt (by omega)]
          exact h3
        have hg : j.val - k = a := by omega
        rw [if_pos h2, hg, hj, Function.update_same]
      · have h2 : ¬ (k + a ≤ j.val ∧ j.val < k + a + (n + 1)) := by omega
        have hj : j ≠ idx8 (k + a) := by
          intro hj
          apply h3
          have := congrArg Fin.val hj
          rw [this]
          show (k + a) % 256 = k + a
          exact Nat.mod_eq_of_lt (by omega)
        rw [if_neg h2, Function.update_noteq hj]

theorem storeGates_range_id (g : Nat → idt_entry_t) (n a : Nat)
    (t : Fin 256 → idt_entry_t) (hn : a + n ≤ 256) (j : Fin 256) :
    storeGates (fun X => X) g (List.range' a n) t j =
      if a ≤ j.val ∧ j.val < a + n then g j.val else t j := by
  have hv : (fun X : Nat => X) = (fun X => 0 + X) := by
    funext X
    omega
  rw [hv, storeGates_range 0 g n a t (by omega) j]
  simp only [Nat.zero_add, Nat.sub_zero]

theorem bindIrq_eq (B : Board) (s : State) :
    bindIrq B s =
      { s with
        idt_entries := storeGates (fun X => 32 + X) (fun X => gateOf (B.irq X) 0x08 0x8E)
          (List.range' 0 16) s.idt_entries,
        idtr := some s.idt_ptr,
        trace := s.trace ++ [Event.lidt (u32 B.idt_ptr_addr), Event.debug] } := by
  have h := foldl_idtSetGate (fun X => 32 + X) B.irq 0x08 0x8E (List.range 16) s
  have h2 : bindIrq B s =
      IAL_DEBUG (idtFlush B
        ((List.range 16).foldl (fun s X => idtSetGate (32 + X) (B.irq X) 0x08 0x8E s) s)) := rfl
  rw [h2, h, List.range_eq_range']
  simp [IAL_DEBUG, idtFlush]

theorem bindIsr_eq (B : Board) (s : State) :
    bindIsr B s =
      { s with
        idt_entries := storeGates (fun X => X) (fun X => gateOf (B.isr X) 0x08 0xEE)
          (List.range' 48 208)
          (storeGates (fun X => X) (fun X => gateOf (B.isr X) 0x08 0x8E)
            (List.range' 0 32) s.idt_entries),
        idtr := some s.idt_ptr,
        trace := s.trace ++ [Event.lidt (u32 B.idt_ptr_addr), Event.debug] } := by
  have h2 : bindIsr B s =
      IAL_DEBUG (idtFlush B
        ((List.range' 48 208).foldl (fun s X => idtSetGate X (B.isr X) 0x08 0xEE s)
          ((List.range 32).foldl (fun s X => idtSetGate X (B.isr X) 0x08 0x8E s) s))) := rfl
  rw [h2, foldl_idtSetGate (fun X => X) B.isr 0x08 0x8E (List.range 32) s,
    foldl_idtSetGate (fun X => X) B.isr 0x08 0xEE (List.range' 48 208), List.range_eq_range']
  simp [IAL_DEBUG, idtFlush]

theorem initIdt_eq (B : Board) (s : State) :
    initIdt B s =
      { s with
        idt_ptr := { limit := u16 (sub32 (B.sizeof_idt_entry_t * 256) 1),
                     base := u32 B.idt_entries_addr },
        idt_entries := fun _ => zeroGate,
        trace := s.trace ++ [Event.debug] } :=
  rfl

theorem bindIrq_entries (B : Board) (s : State) (j : Fin 256) :
    (bindIrq B s).idt_entries j =
      if 32 ≤ j.val ∧ j.val < 48 then gateOf (B.irq (j.val - 32)) 0x08 0x8E
      else s.idt_entries j := by
  rw [bindIrq_eq]
  dsimp only
  rw [storeGates_range 32 _ 16 0 _ (by omega) j]

theorem bindIsr_entries (B : Board) (s : State) (j : Fin 256) :
    (bindIsr B s).idt_entries j =
      if j.val < 32 then gateOf (B.isr j.val) 0x08 0x8E
      else if 48 ≤ j.val then gateOf (B.isr j.val) 0x08 0xEE
      else s.idt_entries j := by
  rw [bindIsr_eq]
  dsimp only
  rw [storeGates_range_id _ 208 48 _ (by omega) j, storeGates_range_id _ 32 0 _ (by omega) j]
  have hj := j.isLt
  by_cases h1 : j.val < 32
  · have h2 : ¬ (48 ≤ j.val ∧ j.val < 48 + 208) := by omega
    have h3 : 0 ≤ j.val ∧ j.val < 0 + 32 := by omega
    rw [if_neg h2, if_pos h3, if_pos h1]
  · by_cases h4 : 48 ≤ j.val
    · have h2 : 48 ≤ j.val ∧ j.val < 48 + 208 := by omega
      rw [if_pos h2, if_neg h1, if_pos h4]
    · have h2 : ¬ (48 ≤ j.val ∧ j.val < 48 + 208) := by omega
      have h3 : ¬ (0 ≤ j.val ∧ j.val < 0 + 32) := by omega
      rw [if_neg h2, if_neg h3, if_neg h1, if_neg h4]

/-- Table left by `initIdt (); bindIsr (); bindIrq ();`, whatever it held before. -/
theorem populate_entries (B : Board) (s : State) (j : Fin 256) :
    (bindIrq B (bindIsr B (initIdt B s))).idt_entries j =
      if j.val < 32 then gateOf (B.isr j.val) 0x08 0x8E
      else if j.val < 48 then gateOf (B.irq (j.val - 32)) 0x08 0x8E
      else gateOf (B.isr j.val) 0x08 0xEE := by
  rw [bindIrq_entries, bindIsr_entries]
  by_cases h1 : j.val < 32
  · have h2 : ¬ (32 ≤ j.val ∧ j.val < 48) := by omega
    rw [if_neg h2, if_pos h1, if_pos h1]
  · by_cases h3 : j.val < 48
    · have h2 : 32 ≤ j.val ∧ j.val < 48 := by omega
      rw [if_pos h2, if_neg h1, if_pos h3]
    · have h2 : ¬ (32 ≤ j.val ∧ j.val < 48) := by omega
      have h4 : 48 ≤ j.val := by omega
      rw [if_neg h2, if_neg h1, if_neg h1, if_pos h4, if_neg h3]

theorem initCpu_eq (B : Board) (c : Cpu) (s : State) :
    initCpu B c s =
      { s with
        cr4 := if u32 (c.cpuid B.CPUID_GETFEATURES).2 &&& B.CPUID_FEAT_EDX_PGE ≠ 0
          then u32 (u32 s.cr4 ||| (1 <<< 7)) else s.cr4,
        trace := s.trace ++ [Event.debug, Event.debug, Event.debug] ++
          (if u32 (c.cpuid B.CPUID_GETFEATURES).2 &&& B.CPUID_FEAT_EDX_PGE ≠ 0
            then [Event.debug, Event.wrcr4 (u32 (u32 s.cr4 ||| (1 <<< 7)))]
            else [Event.debug]) ++ [Event.debug] } := by
  unfold initCpu
  by_cases h : u32 (c.cpuid B.CPUID_GETFEATURES).2 &&& B.CPUID_FEAT_EDX_PGE ≠ 0
  · simp [h, IAL_DEBUG, wrcr4]
  · simp [h, IAL_DEBUG, wrcr4]

/-- The ten port writes of `pic_setup`, as issued. -/
theorem pic_setup_eq (B : Board) (s : State) :
    pic_setup B s =
      { s with trace := s.trace ++
          [Event.outb (u16 B.PIC1_COMMAND) (u8 (B.ICW1_INIT ||| B.ICW1_ICW4)),
           Event.outb (u16 B.PIC2_COMMAND) (u8 (B.ICW1_INIT ||| B.ICW1_ICW4)),
           Event.outb (u16 B.PIC1_DATA) (u8 0x20),
           Event.outb (u16 B.PIC2_DATA) (u8 0x28),
           Event.outb (u16 B.PIC1_DATA) (u8 4),
           Event.outb (u16 B.PIC2_DATA) (u8 2),
           Event.outb (u16 B.PIC1_DATA) (u8 B.ICW4_8086),
           Event.outb (u16 B.PIC2_DATA) (u8 B.ICW4_8086),
           Event.outb (u16 B.PIC1_DATA) (u8 0xFF),
           Event.outb (u16 B.PIC2_DATA) (u8 0xFF)] } := by
  simp [pic_setup, outb, IRQ_BASE]

theorem enable_apic_eq (s : State) :
    enable_apic s =
      { s with
        msr := Function.update s.msr (u32 IA32_APIC_BASE_MSR)
          (u32 ((u32 (cpu_get_apic_base s) &&& 0xfffff000) ||| IA32_APIC_BASE_MSR_ENABLE),
            u32 0),
        mem := Function.update s.mem (sivrAddr s) (u32 (u32 (s.mem (sivrAddr s)) ||| 0x100)),
        trace := s.trace ++
          [Event.wrmsr (u32 IA32_APIC_BASE_MSR)
            (u32 ((u32 (cpu_get_apic_base s) &&& 0xfffff000) ||| IA32_APIC_BASE_MSR_ENABLE))
            (u32 0),
           Event.store32 (sivrAddr s) (u32 (u32 (s.mem (sivrAddr s)) ||| 0x100))] } := by
  simp [enable_apic, cpu_set_apic_base, cpu_set_msr, store32, sivrAddr]

/-! ## The orchestrator, branch by branch -/

theorem initInterrupts_bsp (B : Board) (c : Cpu) (s : State) (h : c.coreId = 0) :
    initInterrupts B c s =
      Run.ret (initCpu B c
        { bindIrq B (bindIsr B (initIdt B (IAL_DEBUG (pic_setup B
            (IAL_DEBUG (IAL_DEBUG (IAL_DEBUG (IAL_DEBUG s)))))))) with timer_ticks := 0 }) := by
  unfold initInterrupts
  rw [if_pos h]

theorem initInterrupts_ap (B : Board) (c : Cpu) (s : State) (h : c.coreId ≠ 0)
    (hapic : u32 (c.cpuid 1).2 &&& B.CPUID_FEAT_EDX_APIC ≠ 0) :
    initInterrupts B c s =
      Run.ret (initCpu B c (IAL_DEBUG (enable_apic (IAL_DEBUG
        (bindIrq B (bindIsr B (initIdt B (IAL_DEBUG s)))))))) := by
  unfold initInterrupts apicInit
  rw [if_neg h]
  simp only [if_pos hapic]

theorem initInterrupts_ap_spin (B : Board) (c : Cpu) (s : State) (h : c.coreId ≠ 0)
    (hapic : ¬ (u32 (c.cpuid 1).2 &&& B.CPUID_FEAT_EDX_APIC ≠ 0)) :
    initInterrupts B c s =
      Run.spin (IAL_DEBUG (bindIrq B (bindIsr B (initIdt B (IAL_DEBUG s))))) := by
  unfold initInterrupts apicInit
  rw [if_neg h]
  simp only [if_neg hapic]

/-! ## Frame facts -/

theorem IAL_DEBUG_idt_entries (s : State) : (IAL_DEBUG s).idt_entries = s.idt_entries := rfl

theorem IAL_DEBUG_timer_ticks (s : State) : (IAL_DEBUG s).timer_ticks = s.timer_ticks := rfl

theorem initCpu_idt_entries (B : Board) (c : Cpu) (s : State) :
    (initCpu B c s).idt_entries = s.idt_entries := by
  rw [initCpu_eq]

theorem enable_apic_idt_entries (s : State) :
    (enable_apic s).idt_entries = s.idt_entries := by
  rw [enable_apic_eq]

theorem initCpu_timer_ticks (B : Board) (c : Cpu) (s : State) :
    (initCpu B c s).timer_ticks = s.timer_ticks := by
  rw [initCpu_eq]

theorem enable_apic_timer_ticks (s : State) :
    (enable_apic s).timer_ticks = s.timer_ticks := by
  rw [enable_apic_eq]

theorem bindIrq_timer_ticks (B : Board) (s : State) :
    (bindIrq B s).timer_ticks = s.timer_ticks := by
  rw [bindIrq_eq]

theorem bindIsr_timer_ticks (B : Board) (s : State) :
    (bindIsr B s).timer_ticks = s.timer_ticks := by
  rw [bindIsr_eq]

/-- Fields of the gates installed by the two batches. -/
theorem gateOf_fields (base flags : Nat) (hf : flags < 256) :
    (gateOf base 0x08 flags).flags = flags ∧ (gateOf base 0x08 flags).sel = 0x08 ∧
      (gateOf base 0x08 flags).always0 = 0 := by
  refine ⟨?_, ?_, rfl⟩
  · show flags % 2 ^ 8 = flags
    exact Nat.mod_eq_of_lt hf
  · show 0x08 % 2 ^ 16 = 0x08
    decide

/-- Flags, selector and reserved byte of every vector once the table is populated. -/
theorem populate_classes (B : Board) (s : State) (v : Fin 256) :
    (v.val ≤ 47 → ((bindIrq B (bindIsr B (initIdt B s))).idt_entries v).flags = 0x8E) ∧
    (48 ≤ v.val → ((bindIrq B (bindIsr B (initIdt B s))).idt_entries v).flags = 0xEE) ∧
    ((bindIrq B (bindIsr B (initIdt B s))).idt_entries v).sel = 0x08 ∧
    ((bindIrq B (bindIsr B (initIdt B s))).idt_entries v).always0 = 0 := by
  rw [populate_entries]
  by_cases h1 : v.val < 32
  · rw [if_pos h1]
    obtain ⟨hf, hs, ha⟩ := gateOf_fields (B.isr v.val) 0x8E (by decide)
    exact ⟨fun _ => hf, fun h => absurd h (by omega), hs, ha⟩
  · rw [if_neg h1]
    by_cases h2 : v.val < 48
    · rw [if_pos h2]
      obtain ⟨hf, hs, ha⟩ := gateOf_fields (B.irq (v.val - 32)) 0x8E (by decide)
      exact ⟨fun _ => hf, fun h => absurd h (by omega), hs, ha⟩
    · rw [if_neg h2]
      obtain ⟨hf, hs, ha⟩ := gateOf_fields (B.isr v.val) 0xEE (by decide)
      exact ⟨fun h => absurd h (by omega), fun _ => hf, hs, ha⟩

/-! ## Claims -/

/-- C1. On the boot core, and on a secondary core whose feature word has the APIC bit,
`initInterrupts` returns, and in the state it returns every vector 0..47 carries the flags
byte 0x8E, every vector 48..255 the flags byte 0xEE, and all 256 gates have selector 0x08
and a zero reserved byte. -/
theorem C1_initInterrupts_gate_classes (B : Board) (c : Cpu) (s : State)
    (h : c.coreId = 0 ∨ (c.coreId ≠ 0 ∧ u32 (c.cpuid 1).2 &&& B.CPUID_FEAT_EDX_APIC ≠ 0)) :
    ∃ s', initInterrupts B c s = Run.ret s' ∧
      ∀ v : Fin 256,
        (v.val ≤ 47 → (s'.idt_entries v).flags = 0x8E) ∧
        (48 ≤ v.val → (s'.idt_entries v).flags = 0xEE) ∧
        (s'.idt_entries v).sel = 0x08 ∧
        (s'.idt_entries v).always0 = 0 := by
  rcases h with h0 | ⟨h1, hapic⟩
  · rw [initInterrupts_bsp B c s h0]
    refine ⟨_, rfl, ?_⟩
    intro v
    simp only [initCpu_idt_entries]
    exact populate_classes B _ v
  · rw [initInterrupts_ap B c s h1 hapic]
    refine ⟨_, rfl, ?_⟩
    intro v
    simp only [initCpu_idt_entries, IAL_DEBUG_idt_entries, enable_apic_idt_entries]
    exact populate_classes B _ v

/-- Instance of C1: a secondary core with a local controller, starting from a dirty table. -/
theorem C1_witness :
    (apCpu.coreId = 0 ∨
      (apCpu.coreId ≠ 0 ∧ u32 (apCpu.cpuid 1).2 &&& galileo.CPUID_FEAT_EDX_APIC ≠ 0)) ∧
    ∃ s', initInterrupts galileo apCpu dirtyState = Run.ret s' ∧
      ∀ v : Fin 256,
        (v.val ≤ 47 → (s'.idt_entries v).flags = 0x8E) ∧
        (48 ≤ v.val → (s'.idt_entries v).flags = 0xEE) ∧
        (s'.idt_entries v).sel = 0x08 ∧
        (s'.idt_entries v).always0 = 0 :=
  ⟨Or.inr ⟨by decide, by decide⟩,
    C1_initInterrupts_gate_classes galileo apCpu dirtyState (Or.inr ⟨by decide, by decide⟩)⟩

/-- C2. For a vector below 256, a 32-bit address, a 16-bit selector and a flags byte,
`idtSetGate` leaves at that vector the low half `base mod 2^16`, the high half
`base div 2^16` (so the two halves recompose to `base`), the selector, a zero reserved byte
and the flags; every other entry is unchanged. -/
theorem C2_idtSetGate_readback (num base sel flags : Nat) (s : State)
    (hnum : num < 256) (hbase : base < 2 ^ 32) (hsel : sel < 2 ^ 16) (hflags : flags < 2 ^ 8) :
    ((idtSetGate num base sel flags s).idt_entries ⟨num, hnum⟩).base_lo = base % 2 ^ 16 ∧
    ((idtSetGate num base sel flags s).idt_entries ⟨num, hnum⟩).base_hi = base / 2 ^ 16 ∧
    ((idtSetGate num base sel flags s).idt_entries ⟨num, hnum⟩).base_lo +
      2 ^ 16 * ((idtSetGate num base sel flags s).idt_entries ⟨num, hnum⟩).base_hi = base ∧
    ((idtSetGate num base sel flags s).idt_entries ⟨num, hnum⟩).sel = sel ∧
    ((idtSetGate num base sel flags s).idt_entries ⟨num, hnum⟩).always0 = 0 ∧
    ((idtSetGate num base sel flags s).idt_entries ⟨num, hnum⟩).flags = flags ∧
    ∀ j : Fin 256, j.val ≠ num →
      (idtSetGate num base sel flags s).idt_entries j = s.idt_entries j := by
  have hi : idx8 num = ⟨num, hnum⟩ := Fin.ext (Nat.mod_eq_of_lt hnum)
  have hb : u32 base = base := Nat.mod_eq_of_lt hbase
  have hlo : base &&& 0xFFFF = base % 2 ^ 16 := Nat.and_pow_two_sub_one_eq_mod base 16
  have hdiv : base / 2 ^ 16 < 2 ^ 16 := by omega
  have hhi : (base >>> 16) &&& 0xFFFF = base / 2 ^ 16 := by
    rw [Nat.shiftRight_eq_div_pow]
    have h := Nat.and_pow_two_sub_one_eq_mod (base / 2 ^ 16) 16
    rw [Nat.mod_eq_of_lt hdiv] at h
    exact h
  have e1 : (gateOf base sel flags).base_lo = base % 2 ^ 16 := by
    show u16 (u32 base &&& 0xFFFF) = _
    rw [hb, hlo]
    exact Nat.mod_eq_of_lt (Nat.mod_lt _ (by decide))
  have e2 : (gateOf base sel flags).base_hi = base / 2 ^ 16 := by
    show u16 ((u32 base >>> 16) &&& 0xFFFF) = _
    rw [hb, hhi]
    exact Nat.mod_eq_of_lt hdiv
  have e3 : (gateOf base sel flags).sel = sel := Nat.mod_eq_of_lt hsel
  have e4 : (gateOf base sel flags).flags = flags := Nat.mod_eq_of_lt hflags
  rw [idtSetGate_eq]
  dsimp only
  rw [← hi, Function.update_same, e1, e2, e3, e4]
  refine ⟨rfl, rfl, ?_, rfl, rfl, rfl, ?_⟩
  · omega
  · intro j hj
    apply Function.update_noteq
    intro hji
    apply hj
    rw [hji, hi]

/-- Instance of C2: a user gate at vector 0x80 of a dirty table. -/
theorem C2_witness :
    ((idtSetGate 0x80 0x00101800 0x08 0xEE dirtyState).idt_entries ⟨0x80, by decide⟩).base_lo
      = 0x00101800 % 2 ^ 16 ∧
    ((idtSetGate 0x80 0x00101800 0x08 0xEE dirtyState).idt_entries ⟨0x80, by decide⟩).base_hi
      = 0x00101800 / 2 ^ 16 ∧
    ((idtSetGate 0x80 0x00101800 0x08 0xEE dirtyState).idt_entries ⟨0x80, by decide⟩).base_lo +
      2 ^ 16 *
        ((idtSetGate 0x80 0x00101800 0x08 0xEE dirtyState).idt_entries ⟨0x80, by decide⟩).base_hi
      = 0x00101800 ∧
    ((idtSetGate 0x80 0x00101800 0x08 0xEE dirtyState).idt_entries ⟨0x80, by decide⟩).sel
      = 0x08 ∧
    ((idtSetGate 0x80 0x00101800 0x08 0xEE dirtyState).idt_entries ⟨0x80, by decide⟩).always0
      = 0 ∧
    ((idtSetGate 0x80 0x00101800 0x08 0xEE dirtyState).idt_entries ⟨0x80, by decide⟩).flags
      = 0xEE ∧
    ∀ j : Fin 256, j.val ≠ 0x80 →
      (idtSetGate 0x80 0x00101800 0x08 0xEE dirtyState).idt_entries j =
        dirtyState.idt_entries j :=
  C2_idtSetGate_readback 0x80 0x00101800 0x08 0xEE dirtyState
    (by decide) (by decide) (by decide) (by decide)

/-- C3. From any state, `initIdt` (a total function: it has no outcome but returning) leaves
all 256 entries equal to the zero gate, and a descriptor whose limit is
`256 * sizeof (idt_entry_t) - 1`, which is 2047 when the gate is 8 bytes, and whose base is
the address of the table. The size is that of a type that fits the 16-bit limit. -/
theorem C3_initIdt_zero_table (B : Board) (s : State)
    (hsz : 0 < B.sizeof_idt_entry_t ∧ B.sizeof_idt_entry_t ≤ 256)
    (haddr : B.idt_entries_addr < 2 ^ 32) :
    (∀ j : Fin 256,
      ((initIdt B s).idt_entries j).base_lo = 0 ∧ ((initIdt B s).idt_entries j).base_hi = 0 ∧
      ((initIdt B s).idt_entries j).sel = 0 ∧ ((initIdt B s).idt_entries j).always0 = 0 ∧
      ((initIdt B s).idt_entries j).flags = 0) ∧
    (initIdt B s).idt_ptr.limit = 256 * B.sizeof_idt_entry_t - 1 ∧
    (B.sizeof_idt_entry_t = 8 → (initIdt B s).idt_ptr.limit = 2047) ∧
    (initIdt B s).idt_ptr.base = B.idt_entries_addr := by
  have hl : (initIdt B s).idt_ptr.limit = 256 * B.sizeof_idt_entry_t - 1 := by
    show ((B.sizeof_idt_entry_t * 256) % 2 ^ 32 + (2 ^ 32 - 1 % 2 ^ 32)) % 2 ^ 32 % 2 ^ 16 = _
    omega
  refine ⟨fun j => ⟨rfl, rfl, rfl, rfl, rfl⟩, hl, ?_, Nat.mod_eq_of_lt haddr⟩
  intro h8
  rw [hl, h8]

/-- Instance of C3: the 8-byte gate, from a dirty table and descriptor. -/
theorem C3_witness :
    (∀ j : Fin 256,
      ((initIdt galileo dirtyState).idt_entries j).base_lo = 0 ∧
      ((initIdt galileo dirtyState).idt_entries j).base_hi = 0 ∧
      ((initIdt galileo dirtyState).idt_entries j).sel = 0 ∧
      ((initIdt galileo dirtyState).idt_entries j).always0 = 0 ∧
      ((initIdt galileo dirtyState).idt_entries j).flags = 0) ∧
    (initIdt galileo dirtyState).idt_ptr.limit = 256 * galileo.sizeof_idt_entry_t - 1 ∧
    (galileo.sizeof_idt_entry_t = 8 → (initIdt galileo dirtyState).idt_ptr.limit = 2047) ∧
    (initIdt galileo dirtyState).idt_ptr.base = galileo.idt_entries_addr :=
  C3_initIdt_zero_table galileo dirtyState ⟨by decide, by decide⟩ (by decide)

/-- C4, as stated, fails: after `initIdt` and `bindIsr` alone, vector 32 (and likewise 47)
still holds the zero gate, whose flags byte is 0 and not 0x8E. -/
theorem C4_counterexample :
    (bindIsr galileo (initIdt galileo dirtyState)).idt_entries ⟨32, by decide⟩ = zeroGate ∧
    (bindIsr galileo (initIdt galileo dirtyState)).idt_entries ⟨47, by decide⟩ = zeroGate ∧
    ((bindIsr galileo (initIdt galileo dirtyState)).idt_entries ⟨32, by decide⟩).flags ≠ 0x8E ∧
    ((bindIsr galileo (initIdt galileo dirtyState)).idt_entries ⟨32, by decide⟩).sel ≠ 0x08 := by
  have h32 : (bindIsr galileo (initIdt galileo dirtyState)).idt_entries ⟨32, by decide⟩
      = zeroGate := by
    rw [bindIsr_entries, if_neg (by decide), if_neg (by decide)]
    rfl
  have h47 : (bindIsr galileo (initIdt galileo dirtyState)).idt_entries ⟨47, by decide⟩
      = zeroGate := by
    rw [bindIsr_entries, if_neg (by decide), if_neg (by decide)]
    rfl
  refine ⟨h32, h47, ?_, ?_⟩
  · rw [h32]
    decide
  · rw [h32]
    decide

/-- C4, amended. After `initIdt` followed by `bindIsr` alone, every vector 0..31 holds a
present kernel gate (flags 0x8E, selector 0x08), every vector 48..255 a present user gate
(flags 0xEE, selector 0x08), and the vectors 32..47, which `bindIsr` does not write, hold
the zero gate. -/
theorem C4_bindIsr_coverage (B : Board) (s : State) (v : Fin 256) :
    (v.val ≤ 31 → ((bindIsr B (initIdt B s)).idt_entries v).flags = 0x8E ∧
      ((bindIsr B (initIdt B s)).idt_entries v).sel = 0x08) ∧
    (48 ≤ v.val → ((bindIsr B (initIdt B s)).idt_entries v).flags = 0xEE ∧
      ((bindIsr B (initIdt B s)).idt_entries v).sel = 0x08) ∧
    (32 ≤ v.val ∧ v.val ≤ 47 → (bindIsr B (initIdt B s)).idt_entries v = zeroGate) := by
  rw [bindIsr_entries]
  refine ⟨fun h => ?_, fun h => ?_, fun h => ?_⟩
  · rw [if_pos (by omega)]
    exact ⟨(gateOf_fields _ 0x8E (by decide)).1, (gateOf_fields _ 0x8E (by decide)).2.1⟩
  · rw [if_neg (by omega), if_pos h]
    exact ⟨(gateOf_fields _ 0xEE (by decide)).1, (gateOf_fields _ 0xEE (by decide)).2.1⟩
  · rw [if_neg (by omega), if_neg (by omega)]
    rfl

/-- Instance of C4 amended, at vector 40 of the table of the reference board. -/
theorem C4_witness :
    (((⟨40, by decide⟩ : Fin 256).val ≤ 31 →
      ((bindIsr galileo (initIdt galileo dirtyState)).idt_entries ⟨40, by decide⟩).flags = 0x8E ∧
      ((bindIsr galileo (initIdt galileo dirtyState)).idt_entries ⟨40, by decide⟩).sel = 0x08) ∧
    (48 ≤ (⟨40, by decide⟩ : Fin 256).val →
      ((bindIsr galileo (initIdt galileo dirtyState)).idt_entries ⟨40, by decide⟩).flags = 0xEE ∧
      ((bindIsr galileo (initIdt galileo dirtyState)).idt_entries ⟨40, by decide⟩).sel = 0x08) ∧
    (32 ≤ (⟨40, by decide⟩ : Fin 256).val ∧ (⟨40, by decide⟩ : Fin 256).val ≤ 47 →
      (bindIsr galileo (initIdt galileo dirtyState)).idt_entries ⟨40, by decide⟩ = zeroGate)) ∧
    (bindIsr galileo (initIdt galileo dirtyState)).idt_entries ⟨40, by decide⟩ = zeroGate :=
  ⟨C4_bindIsr_coverage galileo dirtyState ⟨40, by decide⟩,
    (C4_bindIsr_coverage galileo dirtyState ⟨40, by decide⟩).2.2 ⟨by decide, by decide⟩⟩

/-- C5. Whatever the tick counter holds before, a run of `initInterrupts` on the boot core
returns with `timer_ticks = 0`; a run on a secondary core ends, returning or spinning, with
`timer_ticks` unchanged, and it returns when the feature word has the APIC bit. -/
theorem C5_timer_ticks (B : Board) (c : Cpu) (s : State) :
    (c.coreId = 0 →
      ∃ s', initInterrupts B c s = Run.ret s' ∧ s'.timer_ticks = 0) ∧
    (c.coreId ≠ 0 →
      (initInterrupts B c s).state.timer_ticks = s.timer_ticks ∧
      (u32 (c.cpuid 1).2 &&& B.CPUID_FEAT_EDX_APIC ≠ 0 →
        ∃ s', initInterrupts B c s = Run.ret s' ∧ s'.timer_ticks = s.timer_ticks)) := by
  have hframe : (bindIrq B (bindIsr B (initIdt B (IAL_DEBUG s)))).timer_ticks
      = s.timer_ticks := by
    rw [bindIrq_timer_ticks, bindIsr_timer_ticks]
    rfl
  refine ⟨fun h0 => ?_, fun h1 => ?_⟩
  · rw [initInterrupts_bsp B c s h0]
    refine ⟨_, rfl, ?_⟩
    simp only [initCpu_timer_ticks]
  · by_cases hapic : u32 (c.cpuid 1).2 &&& B.CPUID_FEAT_EDX_APIC ≠ 0
    · rw [initInterrupts_ap B c s h1 hapic]
      have ht : (initCpu B c (IAL_DEBUG (enable_apic (IAL_DEBUG
          (bindIrq B (bindIsr B (initIdt B (IAL_DEBUG s)))))))).timer_ticks
          = s.timer_ticks := by
        simp only [initCpu_timer_ticks, IAL_DEBUG_timer_ticks, enable_apic_timer_ticks]
        exact hframe
      exact ⟨ht, fun _ => ⟨_, rfl, ht⟩⟩
    · rw [initInterrupts_ap_spin B c s h1 hapic]
      refine ⟨?_, fun h => absurd h hapic⟩
      simp only [Run.state, IAL_DEBUG_timer_ticks]
      exact hframe

/-- Instance of C5: the counter at 1234 is reset by the boot core and kept by a secondary
core, with or without a local controller. -/
theorem C5_witness :
    (∃ s', initInterrupts galileo bspCpu dirtyState = Run.ret s' ∧ s'.timer_ticks = 0) ∧
    (initInterrupts galileo apCpu dirtyState).state.timer_ticks = 1234 ∧
    (initInterrupts galileo oldCpu dirtyState).state.timer_ticks = 1234 :=
  ⟨(C5_timer_ticks galileo bspCpu dirtyState).1 (by decide),
    ((C5_timer_ticks galileo apCpu dirtyState).2 (by decide)).1,
    ((C5_timer_ticks galileo oldCpu dirtyState).2 (by decide)).1⟩

/-- C6. On a board whose four controller ports are distinct 16-bit ports and whose command
words are bytes, `pic_setup` appends exactly ten port writes: ICW1 to the master then the
slave command port, 0x20 and 0x28, 4 and 2, ICW4_8086 twice, 0xFF twice, each pair to the
master then the slave data port. So each controller receives its four initialization bytes
in order and then the mask byte, and the last byte written to each data port is 0xFF. -/
theorem C6_pic_setup_sequence (B : Board) (s : State) (hwf : B.picWf) :
    (pic_setup B s).trace = s.trace ++
      [Event.outb B.PIC1_COMMAND (B.ICW1_INIT ||| B.ICW1_ICW4),
       Event.outb B.PIC2_COMMAND (B.ICW1_INIT ||| B.ICW1_ICW4),
       Event.outb B.PIC1_DATA 0x20,
       Event.outb B.PIC2_DATA 0x28,
       Event.outb B.PIC1_DATA 4,
       Event.outb B.PIC2_DATA 2,
       Event.outb B.PIC1_DATA B.ICW4_8086,
       Event.outb B.PIC2_DATA B.ICW4_8086,
       Event.outb B.PIC1_DATA 0xFF,
       Event.outb B.PIC2_DATA 0xFF] ∧
    controllerWrites B.PIC1_COMMAND B.PIC1_DATA ((pic_setup B s).trace.drop s.trace.length) =
      [(B.PIC1_COMMAND, B.ICW1_INIT ||| B.ICW1_ICW4), (B.PIC1_DATA, 0x20), (B.PIC1_DATA, 4),
       (B.PIC1_DATA, B.ICW4_8086), (B.PIC1_DATA, 0xFF)] ∧
    controllerWrites B.PIC2_COMMAND B.PIC2_DATA ((pic_setup B s).trace.drop s.trace.length) =
      [(B.PIC2_COMMAND, B.ICW1_INIT ||| B.ICW1_ICW4), (B.PIC2_DATA, 0x28), (B.PIC2_DATA, 2),
       (B.PIC2_DATA, B.ICW4_8086), (B.PIC2_DATA, 0xFF)] ∧
    (writesTo B.PIC1_DATA ((pic_setup B s).trace.drop s.trace.length)).getLast? = some 0xFF ∧
    (writesTo B.PIC2_DATA ((pic_setup B s).trace.drop s.trace.length)).getLast? = some 0xFF := by
  obtain ⟨p1, p2, p3, p4, n12, n13, n14, n23, n24, n34, w1, w4⟩ := hwf
  have e1 : u16 B.PIC1_COMMAND = B.PIC1_COMMAND := Nat.mod_eq_of_lt p1
  have e2 : u16 B.PIC1_DATA = B.PIC1_DATA := Nat.mod_eq_of_lt p2
  have e3 : u16 B.PIC2_COMMAND = B.PIC2_COMMAND := Nat.mod_eq_of_lt p3
  have e4 : u16 B.PIC2_DATA = B.PIC2_DATA := Nat.mod_eq_of_lt p4
  have e5 : u8 (B.ICW1_INIT ||| B.ICW1_ICW4) = B.ICW1_INIT ||| B.ICW1_ICW4 :=
    Nat.mod_eq_of_lt w1
  have e6 : u8 B.ICW4_8086 = B.ICW4_8086 := Nat.mod_eq_of_lt w4
  have c1 : u8 0x20 = 0x20 := by decide
  have c2 : u8 0x28 = 0x28 := by decide
  have c3 : u8 4 = 4 := by decide
  have c4 : u8 2 = 2 := by decide
  have c5 : u8 0xFF = 0xFF := by decide
  rw [pic_setup_eq]
  simp only [e1, e2, e3, e4, e5, e6, c1, c2, c3, c4, c5, List.drop_left]
  refine ⟨trivial, ?_, ?_, ?_, ?_⟩
  · simp [controllerWrites, portWrites, Event.portWrite?, List.filter, n12, n13, n14, n23,
      n24, n34, n12.symm, n13.symm, n14.symm, n23.symm, n24.symm, n34.symm]
  · simp [controllerWrites, portWrites, Event.portWrite?, List.filter, n12, n13, n14, n23,
      n24, n34, n12.symm, n13.symm, n14.symm, n23.symm, n24.symm, n34.symm]
  · simp [writesTo, portWrites, Event.portWrite?, List.filter, n12, n13, n14, n23,
      n24, n34, n12.symm, n13.symm, n14.symm, n23.symm, n24.symm, n34.symm]
  · simp [writesTo, portWrites, Event.portWrite?, List.filter, n12, n13, n14, n23,
      n24, n34, n12.symm, n13.symm, n14.symm, n23.symm, n24.symm, n34.symm]

/-- The reference board has distinct 16-bit controller ports and byte command words. -/
theorem galileo_picWf : galileo.picWf := by
  unfold Board.picWf
  decide

/-- Instance of C6: the ports 0x20, 0x21, 0xA0, 0xA1 of the reference board. -/
theorem C6_witness :
    galileo.picWf ∧
    (pic_setup galileo dirtyState).trace =
      [Event.outb 0x20 0x11, Event.outb 0xA0 0x11, Event.outb 0x21 0x20, Event.outb 0xA1 0x28,
       Event.outb 0x21 4, Event.outb 0xA1 2, Event.outb 0x21 0x01, Event.outb 0xA1 0x01,
       Event.outb 0x21 0xFF, Event.outb 0xA1 0xFF] ∧
    (writesTo 0x21 ((pic_setup galileo dirtyState).trace.drop 0)).getLast? = some 0xFF :=
  ⟨galileo_picWf,
    (C6_pic_setup_sequence galileo dirtyState galileo_picWf).1,
    (C6_pic_setup_sequence galileo dirtyState galileo_picWf).2.2.2.1⟩

theorem u32_apic_msr : u32 IA32_APIC_BASE_MSR = IA32_APIC_BASE_MSR := by decide

theorem enable_apic_debug (s : State) :
    enable_apic (IAL_DEBUG s) =
      { enable_apic s with
        trace := s.trace ++ [Event.debug] ++ (enable_apic s).trace.drop s.trace.length } := by
  rw [enable_apic_eq, enable_apic_eq]
  simp [IAL_DEBUG, cpu_get_apic_base, cpu_get_msr, sivrAddr]

/-- C7. When the APIC bit of the feature word is clear, `apicInit` does not return: it ends
spinning, having changed no model-specific register and no memory word and having issued
nothing but one debug message. When the bit is set, `apicInit` returns, and between two
debug messages it has done what `enable_apic` does: the registers and memory are those
`enable_apic` leaves and the events are those `enable_apic` issues. -/
theorem C7_apicInit_fail_fast (B : Board) (c : Cpu) (s : State) :
    (u32 (c.cpuid 1).2 &&& B.CPUID_FEAT_EDX_APIC = 0 →
      (apicInit B c s).returned = false ∧
      ∃ s', apicInit B c s = Run.spin s' ∧ s'.msr = s.msr ∧ s'.mem = s.mem ∧
        s'.trace = s.trace ++ [Event.debug]) ∧
    (u32 (c.cpuid 1).2 &&& B.CPUID_FEAT_EDX_APIC ≠ 0 →
      (apicInit B c s).returned = true ∧
      ∃ s', apicInit B c s = Run.ret s' ∧ s'.msr = (enable_apic s).msr ∧
        s'.mem = (enable_apic s).mem ∧
        s'.trace = s.trace ++ [Event.debug] ++ (enable_apic s).trace.drop s.trace.length ++
          [Event.debug]) := by
  refine ⟨fun h => ?_, fun h => ?_⟩
  · have hs : apicInit B c s = Run.spin (IAL_DEBUG s) := by
      unfold apicInit
      simp only [ne_eq, h, not_true_eq_false, if_false]
    rw [hs]
    exact ⟨rfl, _, rfl, rfl, rfl, rfl⟩
  · have hs : apicInit B c s = Run.ret (IAL_DEBUG (enable_apic (IAL_DEBUG s))) := by
      unfold apicInit
      simp only [if_pos h]
    rw [hs, enable_apic_debug]
    exact ⟨rfl, _, rfl, rfl, rfl, rfl⟩

/-- Instance of C7: a core without a local controller spins, one with it returns. -/
theorem C7_witness :
    (apicInit galileo oldCpu dirtyState).returned = false ∧
    (apicInit galileo apCpu dirtyState).returned = true :=
  ⟨((C7_apicInit_fail_fast galileo oldCpu dirtyState).1 (by decide)).1,
    ((C7_apicInit_fail_fast galileo apCpu dirtyState).2 (by decide)).1⟩

/-! ## Port writes of the two branches -/

theorem Quiet.comp {f g : State → State} (hf : Quiet f) (hg : Quiet g) :
    Quiet (fun s => g (f s)) := by
  intro s
  obtain ⟨t1, h1, q1⟩ := hf s
  obtain ⟨t2, h2, q2⟩ := hg (f s)
  refine ⟨t1 ++ t2, ?_, ?_⟩
  · show (g (f s)).trace = _
    rw [h2, h1, List.append_assoc]
  · unfold portWrites at *
    rw [List.filterMap_append, q1, q2]
    rfl

theorem quiet_IAL_DEBUG : Quiet IAL_DEBUG :=
  fun _ => ⟨[Event.debug], rfl, rfl⟩

theorem quiet_initIdt (B : Board) : Quiet (initIdt B) :=
  fun _ => ⟨[Event.debug], rfl, rfl⟩

theorem quiet_bindIsr (B : Board) : Quiet (bindIsr B) := by
  intro s
  refine ⟨[Event.lidt (u32 B.idt_ptr_addr), Event.debug], ?_, rfl⟩
  rw [bindIsr_eq]

theorem quiet_bindIrq (B : Board) : Quiet (bindIrq B) := by
  intro s
  refine ⟨[Event.lidt (u32 B.idt_ptr_addr), Event.debug], ?_, rfl⟩
  rw [bindIrq_eq]

theorem quiet_enable_apic : Quiet enable_apic := by
  intro s
  refine ⟨[Event.wrmsr (u32 IA32_APIC_BASE_MSR)
      (u32 ((u32 (cpu_get_apic_base s) &&& 0xfffff000) ||| IA32_APIC_BASE_MSR_ENABLE)) (u32 0),
    Event.store32 (sivrAddr s) (u32 (u32 (s.mem (sivrAddr s)) ||| 0x100))], ?_, rfl⟩
  rw [enable_apic_eq]

theorem quiet_initCpu (B : Board) (c : Cpu) : Quiet (initCpu B c) := by
  intro s
  by_cases h : u32 (c.cpuid B.CPUID_GETFEATURES).2 &&& B.CPUID_FEAT_EDX_PGE ≠ 0
  · refine ⟨[Event.debug, Event.debug, Event.debug, Event.debug,
      Event.wrcr4 (u32 (u32 s.cr4 ||| (1 <<< 7))), Event.debug], ?_, rfl⟩
    rw [initCpu_eq]
    simp [h]
  · refine ⟨[Event.debug, Event.debug, Event.debug, Event.debug, Event.debug], ?_, rfl⟩
    rw [initCpu_eq]
    simp [h]

theorem quiet_tick_reset : Quiet (fun s => { s with timer_ticks := 0 }) :=
  fun _ => ⟨[], (List.append_nil _).symm, rfl⟩

/-- A trace without port writes has no legacy-controller write. -/
theorem no_pic_write_of_quiet (B : Board) (tr : List Event) (h : portWrites tr = []) :
    ∀ e ∈ tr, isPicWrite B e = false := by
  intro e he
  cases e with
  | outb p v =>
    have hm : (p, v) ∈ portWrites tr :=
      List.mem_filterMap.mpr ⟨Event.outb p v, he, rfl⟩
    rw [h] at hm
    cases hm
  | inb _ => rfl
  | lidt _ => rfl
  | wrmsr _ _ _ => rfl
  | store32 _ _ => rfl
  | wrcr4 _ => rfl
  | debug => rfl

/-- The table operations of either branch, from the first `initIdt` on. -/
theorem quiet_populate (B : Board) :
    Quiet (fun s => bindIrq B (bindIsr B (initIdt B (IAL_DEBUG s)))) :=
  ((quiet_IAL_DEBUG.comp (quiet_initIdt B)).comp (quiet_bindIsr B)).comp (quiet_bindIrq B)

theorem populate_trace (B : Board) (s : State) :
    (bindIrq B (bindIsr B (initIdt B (IAL_DEBUG s)))).trace =
      s.trace ++ [Event.debug, Event.debug, Event.lidt (u32 B.idt_ptr_addr), Event.debug,
        Event.lidt (u32 B.idt_ptr_addr), Event.debug] := by
  rw [bindIrq_eq, bindIsr_eq, initIdt_eq]
  simp [IAL_DEBUG]

theorem pic_setup_events (B : Board) (s t : State) :
    (pic_setup B t).trace =
      t.trace ++ (pic_setup B s).trace.drop s.trace.length := by
  rw [pic_setup_eq, pic_setup_eq]
  simp only [List.drop_left]

/-- C8. On a secondary core the events of an `initInterrupts` run, returning or spinning,
contain no port write at all, hence no write to a legacy-controller port. On the boot core
the run returns and its events are: debug messages only, then the ten port writes of
`pic_setup` (ICW1 twice, 0x20 and 0x28, 4 and 2, ICW4_8086 twice, 0xFF twice), every one of
them a write to a legacy-controller port, then events without any port write, among them
the table load; the state at the end of the ten writes still has the table, the descriptor
and the table register of the start, and the table operations `initIdt`, `bindIsr`,
`bindIrq` run from that state. -/
theorem C8_secondary_never_touches_pic (B : Board) (c : Cpu) (s : State) :
    (c.coreId ≠ 0 →
      ∃ tr, (initInterrupts B c s).state.trace = s.trace ++ tr ∧ portWrites tr = [] ∧
        ∀ e ∈ tr, isPicWrite B e = false) ∧
    (c.coreId = 0 →
      ∃ s1 pre pic post,
        initInterrupts B c s = Run.ret (initCpu B c
          { bindIrq B (bindIsr B (initIdt B (IAL_DEBUG s1))) with timer_ticks := 0 }) ∧
        pic =
          [Event.outb (u16 B.PIC1_COMMAND) (u8 (B.ICW1_INIT ||| B.ICW1_ICW4)),
           Event.outb (u16 B.PIC2_COMMAND) (u8 (B.ICW1_INIT ||| B.ICW1_ICW4)),
           Event.outb (u16 B.PIC1_DATA) 0x20,
           Event.outb (u16 B.PIC2_DATA) 0x28,
           Event.outb (u16 B.PIC1_DATA) 4,
           Event.outb (u16 B.PIC2_DATA) 2,
           Event.outb (u16 B.PIC1_DATA) (u8 B.ICW4_8086),
           Event.outb (u16 B.PIC2_DATA) (u8 B.ICW4_8086),
           Event.outb (u16 B.PIC1_DATA) 0xFF,
           Event.outb (u16 B.PIC2_DATA) 0xFF] ∧
        pic = (pic_setup B s).trace.drop s.trace.length ∧
        (∀ e ∈ pic, isPicWrite B e = true) ∧
        s1.trace = s.trace ++ pre ++ pic ∧
        (∀ e ∈ pre, e = Event.debug) ∧ portWrites pre = [] ∧
        s1.idt_entries = s.idt_entries ∧ s1.idt_ptr = s.idt_ptr ∧ s1.idtr = s.idtr ∧
        (initInterrupts B c s).state.trace = s1.trace ++ post ∧
        portWrites post = [] ∧ Event.lidt (u32 B.idt_ptr_addr) ∈ post) := by
  refine ⟨fun h1 => ?_, fun h0 => ?_⟩
  · by_cases hapic : u32 (c.cpuid 1).2 &&& B.CPUID_FEAT_EDX_APIC ≠ 0
    · have hq : Quiet (fun s => initCpu B c (IAL_DEBUG (enable_apic (IAL_DEBUG
          (bindIrq B (bindIsr B (initIdt B (IAL_DEBUG s)))))))) :=
        ((((quiet_populate B).comp quiet_IAL_DEBUG).comp quiet_enable_apic).comp
          quiet_IAL_DEBUG).comp (quiet_initCpu B c)
      obtain ⟨tr, ht, hp⟩ := hq s
      rw [initInterrupts_ap B c s h1 hapic]
      exact ⟨tr, ht, hp, no_pic_write_of_quiet B tr hp⟩
    · have hq : Quiet (fun s => IAL_DEBUG (bindIrq B (bindIsr B (initIdt B (IAL_DEBUG s))))) :=
        (quiet_populate B).comp quiet_IAL_DEBUG
      obtain ⟨tr, ht, hp⟩ := hq s
      rw [initInterrupts_ap_spin B c s h1 hapic]
      exact ⟨tr, ht, hp, no_pic_write_of_quiet B tr hp⟩
  · obtain ⟨tr2, ht2, hp2⟩ := quiet_initCpu B c
      { bindIrq B (bindIsr B (initIdt B (IAL_DEBUG (pic_setup B
          (IAL_DEBUG (IAL_DEBUG (IAL_DEBUG (IAL_DEBUG s)))))))) with timer_ticks := 0 }
    refine ⟨pic_setup B (IAL_DEBUG (IAL_DEBUG (IAL_DEBUG (IAL_DEBUG s)))),
      [Event.debug, Event.debug, Event.debug, Event.debug], _,
      [Event.debug, Event.debug, Event.lidt (u32 B.idt_ptr_addr), Event.debug,
        Event.lidt (u32 B.idt_ptr_addr), Event.debug] ++ tr2,
      initInterrupts_bsp B c s h0, rfl, ?_, ?_, ?_, ?_, rfl, ?_, ?_, ?_, ?_, ?_, ?_⟩
    · rw [pic_setup_eq]
      simp only [List.drop_left]
      rfl
    · intro e he
      simp only [List.mem_cons, List.mem_singleton, List.not_mem_nil, or_false] at he
      rcases he with h | h | h | h | h | h | h | h | h | h <;>
        (rw [h]; simp [isPicWrite])
    · rw [pic_setup_eq]
      simp [IAL_DEBUG]
      decide
    · intro e he
      simpa using he
    · rw [pic_setup_eq]
      rfl
    · rw [pic_setup_eq]
      rfl
    · rw [pic_setup_eq]
      rfl
    · rw [initInterrupts_bsp B c s h0]
      simp only [Run.state]
      rw [ht2]
      simp only [populate_trace, List.append_assoc]
    · unfold portWrites at *
      rw [List.filterMap_append, hp2]
      rfl
    · simp

/-- Instance of C8: on the reference board a secondary core issues no port write, and the
boot core returns having written the ten bytes to the ports 0x20, 0xA0, 0x21, 0xA1 between
events that are not port writes. -/
theorem C8_witness :
    (∃ tr, (initInterrupts galileo apCpu dirtyState).state.trace = dirtyState.trace ++ tr ∧
      portWrites tr = [] ∧ ∀ e ∈ tr, isPicWrite galileo e = false) ∧
    (initInterrupts galileo bspCpu dirtyState).returned = true ∧
    ∃ pre post,
      (initInterrupts galileo bspCpu dirtyState).state.trace =
        pre ++
        [Event.outb 0x20 0x11, Event.outb 0xA0 0x11, Event.outb 0x21 0x20,
         Event.outb 0xA1 0x28, Event.outb 0x21 4, Event.outb 0xA1 2, Event.outb 0x21 0x01,
         Event.outb 0xA1 0x01, Event.outb 0x21 0xFF, Event.outb 0xA1 0xFF] ++ post ∧
      portWrites pre = [] ∧ portWrites post = [] := by
  refine ⟨(C8_secondary_never_touches_pic galileo apCpu dirtyState).1 (by decide), ?_⟩
  obtain ⟨s1, pre, pic, post, hrun, hpic, _, _, hs1, _, hpre, _, _, _, hfin, hpost, _⟩ :=
    (C8_secondary_never_touches_pic galileo bspCpu dirtyState).2 (by decide)
  refine ⟨?_, pre, post, ?_, hpre, hpost⟩
  · rw [hrun]
    rfl
  · rw [hfin, hs1, hpic]
    rfl

/-! ## Bits of the APIC base register and of the spurious-interrupt register -/

theorem testBit_apic_mask (i : Nat) :
    Nat.testBit 0xfffff000 i = (decide (12 ≤ i) && decide (i < 32)) := by
  have h : (0xfffff000 : Nat) = (2 ^ 20 - 1) <<< 12 := by decide
  rw [h, Nat.testBit_shiftLeft, Nat.testBit_two_pow_sub_one]
  by_cases h12 : 12 ≤ i
  · by_cases h32 : i < 32
    · have h20 : i - 12 < 20 := by omega
      simp [h12, h32, h20]
    · have h20 : ¬ (i - 12 < 20) := by omega
      simp [h12, h32, h20]
  · simp [h12]

theorem testBit_apic_enable (i : Nat) : Nat.testBit 0x800 i = decide (11 = i) := by
  have h : (0x800 : Nat) = 2 ^ 11 := by decide
  rw [h, Nat.testBit_two_pow]

theorem testBit_sivr_enable (i : Nat) : Nat.testBit 0x100 i = decide (8 = i) := by
  have h : (0x100 : Nat) = 2 ^ 8 := by decide
  rw [h, Nat.testBit_two_pow]

theorem apic_mask_lt (x : Nat) : x &&& 0xfffff000 < 2 ^ 32 :=
  Nat.and_lt_two_pow x (by decide)

theorem apic_lo_lt (x : Nat) : (x &&& 0xfffff000) ||| 0x800 < 2 ^ 32 :=
  Nat.or_lt_two_pow (apic_mask_lt x) (by decide)

/-- Masking the rewritten low word gives back the masked original. -/
theorem apic_remask (x : Nat) :
    ((x &&& 0xfffff000) ||| 0x800) &&& 0xfffff000 = x &&& 0xfffff000 := by
  apply Nat.eq_of_testBit_eq
  intro i
  rw [Nat.testBit_and, Nat.testBit_or, Nat.testBit_and, testBit_apic_mask, testBit_apic_enable]
  by_cases h11 : 11 = i
  · have h12 : ¬ 12 ≤ i := by omega
    simp [h12]
  · simp [h11]

/-- Low word `enable_apic` writes, in terms of the low word it reads. -/
theorem apic_lo_written (s : State) :
    u32 ((u32 (cpu_get_apic_base s) &&& 0xfffff000) ||| IA32_APIC_BASE_MSR_ENABLE) =
      (u32 (s.msr IA32_APIC_BASE_MSR).1 &&& 0xfffff000) ||| 0x800 := by
  have ha : cpu_get_apic_base s = u32 (s.msr IA32_APIC_BASE_MSR).1 &&& 0xfffff000 := by
    show u32 (s.msr (u32 IA32_APIC_BASE_MSR)).1 &&& 0xfffff000 = _
    rw [u32_apic_msr]
  have h1 : u32 (cpu_get_apic_base s) = cpu_get_apic_base s := by
    rw [ha]
    exact Nat.mod_eq_of_lt (apic_mask_lt _)
  rw [h1, ha, Nat.and_assoc, Nat.and_self]
  exact Nat.mod_eq_of_lt (apic_lo_lt _)

theorem enable_apic_msr (s : State) :
    (enable_apic s).msr = Function.update s.msr IA32_APIC_BASE_MSR
      ((u32 (s.msr IA32_APIC_BASE_MSR).1 &&& 0xfffff000) ||| 0x800, 0) := by
  rw [enable_apic_eq]
  dsimp only
  rw [apic_lo_written, u32_apic_msr]
  rfl

theorem enable_apic_mem (s : State) :
    (enable_apic s).mem = Function.update s.mem (sivrAddr s)
      (u32 (u32 (s.mem (sivrAddr s)) ||| 0x100)) := by
  rw [enable_apic_eq]

theorem enable_apic_sivrAddr (s : State) : sivrAddr (enable_apic s) = sivrAddr s := by
  rw [enable_apic_eq]
  rfl

theorem enable_apic_base (s : State) :
    cpu_get_apic_base (enable_apic s) = cpu_get_apic_base s := by
  have hb : ∀ t : State,
      cpu_get_apic_base t = u32 (t.msr IA32_APIC_BASE_MSR).1 &&& 0xfffff000 := by
    intro t
    show u32 (t.msr (u32 IA32_APIC_BASE_MSR)).1 &&& 0xfffff000 = _
    rw [u32_apic_msr]
  rw [hb, hb, enable_apic_msr, Function.update_same]
  dsimp only
  have hu : u32 ((u32 (s.msr IA32_APIC_BASE_MSR).1 &&& 0xfffff000) ||| 0x800) =
      (u32 (s.msr IA32_APIC_BASE_MSR).1 &&& 0xfffff000) ||| 0x800 :=
    Nat.mod_eq_of_lt (apic_lo_lt _)
  rw [hu]
  exact apic_remask _

/-- C9. With 32-bit values in the low word of the APIC-base register and in the
spurious-interrupt register, and `lapic_base + 0xF0` a 32-bit address, `enable_apic` writes
the register 0x1B with low word `(lo AND 0xFFFFF000) OR 0x800` and high word 0, then stores
`cur OR 0x100` at `lapic_base + 0xF0`. The base read back by `cpu_get_apic_base` is
unchanged, bits 31..12 of the low word are those of `lo`, bit 11 is set; bit 8 of the
stored word is set and its other bits are those of `cur`. A second `enable_apic` leaves
the same registers and the same memory. -/
theorem C9_enable_apic_values (s : State)
    (hlo : (s.msr IA32_APIC_BASE_MSR).1 < 2 ^ 32)
    (hcur : s.mem (s.lapic_base + 0xF0) < 2 ^ 32)
    (hbase : s.lapic_base + 0xF0 < 2 ^ 32) :
    (enable_apic s).trace = s.trace ++
      [Event.wrmsr 0x1B (((s.msr IA32_APIC_BASE_MSR).1 &&& 0xFFFFF000) ||| 0x800) 0,
       Event.store32 (s.lapic_base + 0xF0) (s.mem (s.lapic_base + 0xF0) ||| 0x100)] ∧
    (enable_apic s).msr IA32_APIC_BASE_MSR =
      (((s.msr IA32_APIC_BASE_MSR).1 &&& 0xFFFFF000) ||| 0x800, 0) ∧
    cpu_get_apic_base (enable_apic s) = cpu_get_apic_base s ∧
    (∀ i, 12 ≤ i → i < 32 →
      ((enable_apic s).msr IA32_APIC_BASE_MSR).1.testBit i =
        (s.msr IA32_APIC_BASE_MSR).1.testBit i) ∧
    ((enable_apic s).msr IA32_APIC_BASE_MSR).1.testBit 11 = true ∧
    (enable_apic s).mem (s.lapic_base + 0xF0) = s.mem (s.lapic_base + 0xF0) ||| 0x100 ∧
    ((enable_apic s).mem (s.lapic_base + 0xF0)).testBit 8 = true ∧
    (∀ i, i ≠ 8 →
      ((enable_apic s).mem (s.lapic_base + 0xF0)).testBit i =
        (s.mem (s.lapic_base + 0xF0)).testBit i) ∧
    (enable_apic (enable_apic s)).msr = (enable_apic s).msr ∧
    (enable_apic (enable_apic s)).mem = (enable_apic s).mem := by
  have ha : sivrAddr s = s.lapic_base + 0xF0 := by
    show (s.lapic_base % 2 ^ 32 + 0xF0) % 2 ^ 32 = _
    omega
  have hl : u32 (s.msr IA32_APIC_BASE_MSR).1 = (s.msr IA32_APIC_BASE_MSR).1 :=
    Nat.mod_eq_of_lt hlo
  have hc : u32 (s.mem (s.lapic_base + 0xF0)) = s.mem (s.lapic_base + 0xF0) :=
    Nat.mod_eq_of_lt hcur
  have hc2 : u32 (s.mem (s.lapic_base + 0xF0) ||| 0x100) =
      s.mem (s.lapic_base + 0xF0) ||| 0x100 :=
    Nat.mod_eq_of_lt (Nat.or_lt_two_pow hcur (by decide))
  have hmsr := enable_apic_msr s
  have hmem := enable_apic_mem s
  rw [ha, hc, hc2] at hmem
  rw [hl] at hmsr
  have htr : (enable_apic s).trace = s.trace ++
      [Event.wrmsr 0x1B (((s.msr IA32_APIC_BASE_MSR).1 &&& 0xFFFFF000) ||| 0x800) 0,
       Event.store32 (s.lapic_base + 0xF0) (s.mem (s.lapic_base + 0xF0) ||| 0x100)] := by
    rw [enable_apic_eq]
    dsimp only
    rw [apic_lo_written, hl, ha, hc, hc2]
    rfl
  have hidem_msr : (enable_apic (enable_apic s)).msr = (enable_apic s).msr := by
    rw [enable_apic_msr (enable_apic s)]
    have hb := enable_apic_base s
    have hb2 : ∀ t : State,
        cpu_get_apic_base t = u32 (t.msr IA32_APIC_BASE_MSR).1 &&& 0xfffff000 := by
      intro t
      show u32 (t.msr (u32 IA32_APIC_BASE_MSR)).1 &&& 0xfffff000 = _
      rw [u32_apic_msr]
    rw [hb2, hb2] at hb
    rw [hb, hmsr, hl, Function.update_idem]
  have hidem_mem : (enable_apic (enable_apic s)).mem = (enable_apic s).mem := by
    rw [enable_apic_mem (enable_apic s), enable_apic_sivrAddr, ha, hmem,
      Function.update_same, Function.update_idem, hc2, Nat.or_assoc, Nat.or_self, hc2]
  rw [hmsr, hmem, Function.update_same, Function.update_same]
  refine ⟨htr, rfl, enable_apic_base s, ?_, ?_, rfl, ?_, ?_, ?_, ?_⟩
  · intro i h12 h32
    show Nat.testBit (((s.msr IA32_APIC_BASE_MSR).1 &&& 0xFFFFF000) ||| 0x800) i = _
    rw [Nat.testBit_or, Nat.testBit_and, testBit_apic_mask, testBit_apic_enable]
    have h11 : ¬ 11 = i := by omega
    simp [h12, h32, h11]
  · show Nat.testBit (((s.msr IA32_APIC_BASE_MSR).1 &&& 0xFFFFF000) ||| 0x800) 11 = true
    rw [Nat.testBit_or, testBit_apic_enable]
    simp
  · rw [Nat.testBit_or, testBit_sivr_enable]
    simp
  · intro i hi
    rw [Nat.testBit_or, testBit_sivr_enable]
    have h8 : ¬ 8 = i := fun h => hi h.symm
    simp [h8]
  · rw [← hmsr]
    exact hidem_msr
  · rw [← hmem]
    exact hidem_mem

/-- Instance of C9: base register 0xFEE00100, spurious-interrupt register 0xFF. -/
theorem C9_witness :
    (enable_apic dirtyState).msr IA32_APIC_BASE_MSR = (0xFEE00800, 0) ∧
    (enable_apic dirtyState).mem 0xFEE000F0 = 0x1FF ∧
    (enable_apic (enable_apic dirtyState)).msr = (enable_apic dirtyState).msr ∧
    (enable_apic (enable_apic dirtyState)).mem = (enable_apic dirtyState).mem :=
  ⟨(C9_enable_apic_values dirtyState (by decide) (by decide) (by decide)).2.1,
    (C9_enable_apic_values dirtyState (by decide) (by decide) (by decide)).2.2.2.2.2.1,
    (C9_enable_apic_values dirtyState (by decide) (by decide) (by decide)).2.2.2.2.2.2.2.2.1,
    (C9_enable_apic_values dirtyState (by decide) (by decide) (by decide)).2.2.2.2.2.2.2.2.2⟩

theorem testBit_pge (i : Nat) : Nat.testBit 0x80 i = decide (7 = i) := by
  have h : (0x80 : Nat) = 2 ^ 7 := by decide
  rw [h, Nat.testBit_two_pow]

/-- C10. For every feature word and every 32-bit CR4 value `c`: after `initCpu`, CR4 is
`c OR 0x80` (bit 7 set, every other bit kept) when the word `edx` has the global-page bit,
and `c` otherwise; whatever the word `ecx` says about process-context identifiers, bit 17
of CR4 is the one of `c`, and `pcid_enabled` keeps its value. -/
theorem C10_initCpu_cr4 (B : Board) (c : Cpu) (s : State) (hcr4 : s.cr4 < 2 ^ 32) :
    (u32 (c.cpuid B.CPUID_GETFEATURES).2 &&& B.CPUID_FEAT_EDX_PGE ≠ 0 →
      (initCpu B c s).cr4 = s.cr4 ||| 0x80 ∧
      (initCpu B c s).cr4.testBit 7 = true ∧
      ∀ i, i ≠ 7 → (initCpu B c s).cr4.testBit i = s.cr4.testBit i) ∧
    (u32 (c.cpuid B.CPUID_GETFEATURES).2 &&& B.CPUID_FEAT_EDX_PGE = 0 →
      (initCpu B c s).cr4 = s.cr4) ∧
    (initCpu B c s).cr4.testBit 17 = s.cr4.testBit 17 ∧
    (initCpu B c s).pcid_enabled = s.pcid_enabled := by
  have hset : u32 (c.cpuid B.CPUID_GETFEATURES).2 &&& B.CPUID_FEAT_EDX_PGE ≠ 0 →
      (initCpu B c s).cr4 = s.cr4 ||| 0x80 := by
    intro h
    rw [initCpu_eq]
    dsimp only
    rw [if_pos h]
    have h1 : u32 s.cr4 = s.cr4 := Nat.mod_eq_of_lt hcr4
    have h2 : (1 <<< 7 : Nat) = 0x80 := by decide
    rw [h1, h2]
    exact Nat.mod_eq_of_lt (Nat.or_lt_two_pow hcr4 (by decide))
  have hclr : u32 (c.cpuid B.CPUID_GETFEATURES).2 &&& B.CPUID_FEAT_EDX_PGE = 0 →
      (initCpu B c s).cr4 = s.cr4 := by
    intro h
    rw [initCpu_eq]
    dsimp only
    rw [if_neg (fun hne => hne h)]
  have hbit : ∀ i, i ≠ 7 → (s.cr4 ||| 0x80).testBit i = s.cr4.testBit i := by
    intro i hi
    rw [Nat.testBit_or, testBit_pge]
    have h7 : ¬ 7 = i := fun h => hi h.symm
    simp [h7]
  refine ⟨fun h => ⟨hset h, ?_, ?_⟩, hclr, ?_, ?_⟩
  · rw [hset h, Nat.testBit_or, testBit_pge]
    simp
  · intro i hi
    rw [hset h]
    exact hbit i hi
  · by_cases h : u32 (c.cpuid B.CPUID_GETFEATURES).2 &&& B.CPUID_FEAT_EDX_PGE = 0
    · rw [hclr h]
    · rw [hset h]
      exact hbit 17 (by decide)
  · rw [initCpu_eq]

/-- Instance of C10: a core with global pages and process-context identifiers, CR4 = 0x10. -/
theorem C10_witness :
    dirtyState.cr4 < 2 ^ 32 ∧
    (initCpu galileo apCpu dirtyState).cr4 = 0x90 ∧
    (initCpu galileo oldCpu dirtyState).cr4 = 0x10 ∧
    (initCpu galileo apCpu dirtyState).cr4.testBit 17 = false ∧
    (initCpu galileo apCpu dirtyState).pcid_enabled = 0 :=
  ⟨by decide,
    ((C10_initCpu_cr4 galileo apCpu dirtyState (by decide)).1 (by decide)).1,
    (C10_initCpu_cr4 galileo oldCpu dirtyState (by decide)).2.1 (by decide),
    (C10_initCpu_cr4 galileo apCpu dirtyState (by decide)).2.2.1,
    (C10_initCpu_cr4 galileo apCpu dirtyState (by decide)).2.2.2⟩

/-! ## Repeated population -/

theorem bindIrq_idt_ptr (B : Board) (s : State) : (bindIrq B s).idt_ptr = s.idt_ptr := by
  rw [bindIrq_eq]

theorem bindIsr_idt_ptr (B : Board) (s : State) : (bindIsr B s).idt_ptr = s.idt_ptr := by
  rw [bindIsr_eq]

theorem bindIrq_idtr (B : Board) (s : State) : (bindIrq B s).idtr = some s.idt_ptr := by
  rw [bindIrq_eq]

/-- The table left by the three steps is the same from any two states. -/
theorem populate_entries_indep (B : Board) (s t : State) :
    (bindIrq B (bindIsr B (initIdt B s))).idt_entries =
      (bindIrq B (bindIsr B (initIdt B t))).idt_entries := by
  funext j
  rw [populate_entries, populate_entries]

/-- The descriptor left by the three steps is the same from any two states. -/
theorem populate_idt_ptr (B : Board) (s : State) :
    (bindIrq B (bindIsr B (initIdt B s))).idt_ptr =
      { limit := u16 (sub32 (B.sizeof_idt_entry_t * 256) 1),
        base := u32 B.idt_entries_addr } := by
  rw [bindIrq_idt_ptr, bindIsr_idt_ptr, initIdt_eq]

/-- C11. From any state, running `initIdt; bindIsr; bindIrq` a second time leaves the same
table, the same descriptor and the same loaded table register as running it once; the
table and the descriptor it leaves are the same from any two prior states, also when other
steps ran in between; and `idtSetGate` called twice with the same arguments leaves the
state that one call leaves. -/
theorem C11_population_idempotent (B : Board) (s t : State)
    (num base sel flags : Nat) :
    (bindIrq B (bindIsr B (initIdt B (bindIrq B (bindIsr B (initIdt B s)))))).idt_entries =
      (bindIrq B (bindIsr B (initIdt B s))).idt_entries ∧
    (bindIrq B (bindIsr B (initIdt B (bindIrq B (bindIsr B (initIdt B s)))))).idt_ptr =
      (bindIrq B (bindIsr B (initIdt B s))).idt_ptr ∧
    (bindIrq B (bindIsr B (initIdt B (bindIrq B (bindIsr B (initIdt B s)))))).idtr =
      (bindIrq B (bindIsr B (initIdt B s))).idtr ∧
    (bindIrq B (bindIsr B (initIdt B s))).idt_entries =
      (bindIrq B (bindIsr B (initIdt B t))).idt_entries ∧
    (bindIrq B (bindIsr B (initIdt B s))).idt_ptr =
      (bindIrq B (bindIsr B (initIdt B t))).idt_ptr ∧
    idtSetGate num base sel flags (idtSetGate num base sel flags s) =
      idtSetGate num base sel flags s := by
  refine ⟨populate_entries_indep B _ s, ?_, ?_, populate_entries_indep B s t, ?_, ?_⟩
  · rw [populate_idt_ptr, populate_idt_ptr]
  · rw [bindIrq_idtr, bindIrq_idtr, bindIsr_idt_ptr, bindIsr_idt_ptr, initIdt_eq, initIdt_eq]
  · rw [populate_idt_ptr, populate_idt_ptr]
  · rw [idtSetGate_eq, idtSetGate_eq]
    dsimp only
    rw [Function.update_idem]

/-! ## Remapped hardware lines -/

/-- Events of `remapIrq`: the two mask reads when the build keeps the masks, the eight
initialization writes, the two mask writes. -/
theorem remapIrq_trace (B : Board) (s : State) :
    (remapIrq B s).trace = s.trace ++
      ((if B.KEEP_PIC_MASK then [Event.inb (u16 B.PIC1_DATA), Event.inb (u16 B.PIC2_DATA)]
        else []) ++
      [Event.outb (u16 B.PIC1_COMMAND) (u8 (B.ICW1_INIT ||| B.ICW1_ICW4)),
       Event.outb (u16 B.PIC2_COMMAND) (u8 (B.ICW1_INIT ||| B.ICW1_ICW4)),
       Event.outb (u16 B.PIC1_DATA) (u8 0x20),
       Event.outb (u16 B.PIC2_DATA) (u8 0x28),
       Event.outb (u16 B.PIC1_DATA) (u8 4),
       Event.outb (u16 B.PIC2_DATA) (u8 2),
       Event.outb (u16 B.PIC1_DATA) (u8 B.ICW4_8086),
       Event.outb (u16 B.PIC2_DATA) (u8 B.ICW4_8086),
       Event.outb (u16 B.PIC1_DATA)
         (u8 (if B.KEEP_PIC_MASK then u8 (s.ports (u16 B.PIC1_DATA)) else 0)),
       Event.outb (u16 B.PIC2_DATA)
         (u8 (if B.KEEP_PIC_MASK then u8 (s.ports (u16 B.PIC2_DATA)) else 0))]) := by
  cases h : B.KEEP_PIC_MASK
  · simp [remapIrq, h, outb, PIC1_OFFSET, PIC2_OFFSET]
  · simp [remapIrq, h, outb, inb, PIC1_OFFSET, PIC2_OFFSET]

/-- Offsets programmed by `pic_setup`. -/
theorem pic_setup_offsets (B : Board) (s : State) (hwf : B.picWf) :
    offsetWritten B.PIC1_DATA ((pic_setup B s).trace.drop s.trace.length) = some 0x20 ∧
    offsetWritten B.PIC2_DATA ((pic_setup B s).trace.drop s.trace.length) = some 0x28 := by
  obtain ⟨p1, p2, p3, p4, n12, n13, n14, n23, n24, n34, w1, w4⟩ := hwf
  have e1 : u16 B.PIC1_COMMAND = B.PIC1_COMMAND := Nat.mod_eq_of_lt p1
  have e2 : u16 B.PIC1_DATA = B.PIC1_DATA := Nat.mod_eq_of_lt p2
  have e3 : u16 B.PIC2_COMMAND = B.PIC2_COMMAND := Nat.mod_eq_of_lt p3
  have e4 : u16 B.PIC2_DATA = B.PIC2_DATA := Nat.mod_eq_of_lt p4
  have c1 : u8 0x20 = 0x20 := by decide
  have c2 : u8 0x28 = 0x28 := by decide
  rw [pic_setup_eq]
  simp only [e1, e2, e3, e4, c1, c2, List.drop_left]
  constructor
  · simp [offsetWritten, writesTo, portWrites, Event.portWrite?, List.filter, n12, n13, n14,
      n23, n24, n34, n12.symm, n13.symm, n14.symm, n23.symm, n24.symm, n34.symm]
  · simp [offsetWritten, writesTo, portWrites, Event.portWrite?, List.filter, n12, n13, n14,
      n23, n24, n34, n12.symm, n13.symm, n14.symm, n23.symm, n24.symm, n34.symm]

/-- Offsets programmed by `remapIrq`, whether or not the build keeps the masks. -/
theorem remapIrq_offsets (B : Board) (s : State) (hwf : B.picWf) :
    offsetWritten B.PIC1_DATA ((remapIrq B s).trace.drop s.trace.length) = some 0x20 ∧
    offsetWritten B.PIC2_DATA ((remapIrq B s).trace.drop s.trace.length) = some 0x28 := by
  obtain ⟨p1, p2, p3, p4, n12, n13, n14, n23, n24, n34, w1, w4⟩ := hwf
  have e1 : u16 B.PIC1_COMMAND = B.PIC1_COMMAND := Nat.mod_eq_of_lt p1
  have e2 : u16 B.PIC1_DATA = B.PIC1_DATA := Nat.mod_eq_of_lt p2
  have e3 : u16 B.PIC2_COMMAND = B.PIC2_COMMAND := Nat.mod_eq_of_lt p3
  have e4 : u16 B.PIC2_DATA = B.PIC2_DATA := Nat.mod_eq_of_lt p4
  have c1 : u8 0x20 = 0x20 := by decide
  have c2 : u8 0x28 = 0x28 := by decide
  rw [remapIrq_trace]
  simp only [e1, e2, e3, e4, c1, c2, List.drop_left]
  cases B.KEEP_PIC_MASK
  · constructor
    · simp [offsetWritten, writesTo, portWrites, Event.portWrite?, List.filter, n12, n13,
        n14, n23, n24, n34, n12.symm, n13.symm, n14.symm, n23.symm, n24.symm, n34.symm]
    · simp [offsetWritten, writesTo, portWrites, Event.portWrite?, List.filter, n12, n13,
        n14, n23, n24, n34, n12.symm, n13.symm, n14.symm, n23.symm, n24.symm, n34.symm]
  · constructor
    · simp [offsetWritten, writesTo, portWrites, Event.portWrite?, List.filter, n12, n13,
        n14, n23, n24, n34, n12.symm, n13.symm, n14.symm, n23.symm, n24.symm, n34.symm]
    · simp [offsetWritten, writesTo, portWrites, Event.portWrite?, List.filter, n12, n13,
        n14, n23, n24, n34, n12.symm, n13.symm, n14.symm, n23.symm, n24.symm, n34.symm]

theorem raisedVector_offsets (n : Nat) (hn : n < 16) : raisedVector 0x20 0x28 n = 32 + n := by
  unfold raisedVector
  by_cases h : n < 8
  · rw [if_pos h]
  · rw [if_neg h]
    omega

theorem programmedVector_of_offsets (B : Board) (tr : List Event) (n : Nat) (hn : n < 16)
    (h1 : offsetWritten B.PIC1_DATA tr = some 0x20)
    (h2 : offsetWritten B.PIC2_DATA tr = some 0x28) :
    programmedVector B tr n = some (32 + n) := by
  unfold programmedVector
  rw [h1, h2]
  show some (raisedVector 0x20 0x28 n) = _
  rw [raisedVector_offsets n hn]

/-- C12. On a board whose four controller ports are distinct 16-bit ports, `pic_setup` and
`remapIrq` both program the master with the offset 0x20 and the slave with 0x28, so for
every hardware line `n` in 0..15 the vector the controllers raise is `32 + n`; `bindIrq`
installs at that vector the handler `irq n` in a kernel gate (flags 0x8E, selector 0x08).
The vectors raised for the 16 lines are exactly 32..47, and `bindIrq` writes no entry
outside them. -/
theorem C12_irq_lines_meet_their_gates (B : Board) (s : State) (hwf : B.picWf)
    (n : Nat) (hn : n < 16) :
    offsetWritten B.PIC1_DATA ((pic_setup B s).trace.drop s.trace.length) = some 0x20 ∧
    offsetWritten B.PIC2_DATA ((pic_setup B s).trace.drop s.trace.length) = some 0x28 ∧
    offsetWritten B.PIC1_DATA ((remapIrq B s).trace.drop s.trace.length) = some 0x20 ∧
    offsetWritten B.PIC2_DATA ((remapIrq B s).trace.drop s.trace.length) = some 0x28 ∧
    programmedVector B ((pic_setup B s).trace.drop s.trace.length) n = some (32 + n) ∧
    programmedVector B ((remapIrq B s).trace.drop s.trace.length) n = some (32 + n) ∧
    (bindIrq B s).idt_entries ⟨32 + n, by omega⟩ = gateOf (B.irq n) 0x08 0x8E ∧
    ((bindIrq B s).idt_entries ⟨32 + n, by omega⟩).flags = 0x8E ∧
    ((bindIrq B s).idt_entries ⟨32 + n, by omega⟩).sel = 0x08 ∧
    (∀ v : Fin 256, (32 ≤ v.val ∧ v.val ≤ 47) ↔
      ∃ m, m < 16 ∧
        programmedVector B ((pic_setup B s).trace.drop s.trace.length) m = some v.val) ∧
    (∀ v : Fin 256, ¬ (32 ≤ v.val ∧ v.val ≤ 47) →
      (bindIrq B s).idt_entries v = s.idt_entries v) := by
  obtain ⟨hp1, hp2⟩ := pic_setup_offsets B s hwf
  obtain ⟨hr1, hr2⟩ := remapIrq_offsets B s hwf
  have hgate : (bindIrq B s).idt_entries ⟨32 + n, by omega⟩ = gateOf (B.irq n) 0x08 0x8E := by
    rw [bindIrq_entries]
    have hc : 32 ≤ 32 + n ∧ 32 + n < 48 := by omega
    have hv : (⟨32 + n, by omega⟩ : Fin 256).val = 32 + n := rfl
    rw [hv, if_pos hc, Nat.add_sub_cancel_left]
  refine ⟨hp1, hp2, hr1, hr2, programmedVector_of_offsets B _ n hn hp1 hp2,
    programmedVector_of_offsets B _ n hn hr1 hr2, hgate, ?_, ?_, ?_, ?_⟩
  · rw [hgate]
    exact (gateOf_fields _ 0x8E (by decide)).1
  · rw [hgate]
    exact (gateOf_fields _ 0x8E (by decide)).2.1
  · intro v
    constructor
    · intro hv
      refine ⟨v.val - 32, by omega, ?_⟩
      rw [programmedVector_of_offsets B _ (v.val - 32) (by omega) hp1 hp2]
      congr 1
      omega
    · rintro ⟨m, hm, hpv⟩
      rw [programmedVector_of_offsets B _ m hm hp1 hp2] at hpv
      have hval : 32 + m = v.val := Option.some.inj hpv
      omega
  · intro v hv
    rw [bindIrq_entries, if_neg (by omega)]

/-- Instance of C12: line 10 of the reference board is raised at vector 42, where `bindIrq`
puts the kernel gate of `irq10`. -/
theorem C12_witness :
    galileo.picWf ∧
    programmedVector galileo ((pic_setup galileo dirtyState).trace.drop dirtyState.trace.length)
      10 = some 42 ∧
    programmedVector galileo ((remapIrq galileo dirtyState).trace.drop dirtyState.trace.length)
      10 = some 42 ∧
    (bindIrq galileo dirtyState).idt_entries ⟨42, by decide⟩ =
      gateOf (galileo.irq 10) 0x08 0x8E ∧
    ((bindIrq galileo dirtyState).idt_entries ⟨42, by decide⟩).flags = 0x8E :=
  ⟨galileo_picWf,
    (C12_irq_lines_meet_their_gates galileo dirtyState galileo_picWf 10 (by decide)).2.2.2.2.1,
    (C12_irq_lines_meet_their_gates galileo dirtyState galileo_picWf 10
      (by decide)).2.2.2.2.2.1,
    (C12_irq_lines_meet_their_gates galileo dirtyState galileo_picWf 10
      (by decide)).2.2.2.2.2.2.1,
    (C12_irq_lines_meet_their_gates galileo dirtyState galileo_picWf 10
      (by decide)).2.2.2.2.2.2.2.1⟩

end IAL
